import Mathlib

/-!
Centrinel include file: the `__sync` rewrites.

A shallow embedding of `src/include/centrinel.h`.  Every function-like
definition of the header under `#ifdef __CENTRINEL_HACK_SYNC_ATOMICS` (which the
header itself defines, line 14) becomes a state-passing Lean function over a
memory of integer cells.  Operands are computations, because the header
substitutes operand *expressions*: an operand with a side effect runs as often
as the expansion evaluates it.

Conventions of the embedding of C expressions:

* the definitions are generic in the type of `*ptr`, as `typeof` makes them in
  the header: `_Bool`, an unsigned or a signed integer type of any width.  A
  cell holds the mathematical value of the object;
* a binary operator works on its operands after the usual arithmetic
  conversions (integer promotions to 32-bit `int`, then the common type), and a
  store converts to the pointee type.  Conversion to an unsigned type reduces
  modulo `2 ^ w`; conversion to a signed type yields the value of the type
  congruent modulo `2 ^ w` (what gcc and clang define; where C leaves a signed
  overflow undefined the result wraps in the same way); conversion to `_Bool`
  yields 0 for 0 and 1 otherwise;
* every read and every write of memory is appended to a trace;
* C leaves the order of the two operands of an assignment, of `==` and of `&`
  unspecified; here the right operand of an assignment is evaluated before the
  left one, and the operands of `==` and of `&` from left to right.
-/

namespace Centrinel

/-- Addresses of memory cells. -/
abbrev Addr := Nat

/-- The integer types of C by what decides the value of an expression:
`_Bool`, the unsigned type of `w` bits and the signed type of `w` bits (sign
bit included). -/
inductive CType where
  | bool
  | uint (w : Nat)
  | sint (w : Nat)
  deriving DecidableEq, Repr

/-- The width of a type; `_Bool` has one value bit. -/
def CType.width : CType → Nat
  | .bool => 1
  | .uint w => w
  | .sint w => w

/-- The width of `int`. -/
def intBits : Nat := 32

/-- Conversion of an integer value to a type: 0 or 1 for `_Bool`, reduction
modulo `2 ^ w` for an unsigned type, and for a signed type the value congruent
modulo `2 ^ w` that lies in `[-2 ^ (w - 1), 2 ^ (w - 1))`. -/
def conv : CType → Int → Int
  | .bool, x => if x = 0 then 0 else 1
  | .uint w, x => x % 2 ^ w
  | .sint w, x => if 2 * (x % 2 ^ w) < 2 ^ w then x % 2 ^ w else x % 2 ^ w - 2 ^ w

/-- The values of a type. -/
def CType.holds : CType → Int → Prop
  | .bool, x => x = 0 ∨ x = 1
  | .uint w, x => 0 ≤ x ∧ x < 2 ^ w
  | .sint w, x => -(2 ^ w) ≤ 2 * x ∧ 2 * x < 2 ^ w

/-- Membership in a type is decidable. -/
instance CType.decHolds : (t : CType) → (x : Int) → Decidable (t.holds x)
  | .bool, x => inferInstanceAs (Decidable (x = 0 ∨ x = 1))
  | .uint w, x => inferInstanceAs (Decidable (0 ≤ x ∧ x < 2 ^ w))
  | .sint w, x => inferInstanceAs (Decidable (-(2 ^ w) ≤ 2 * x ∧ 2 * x < 2 ^ w))

/-- The integer promotions: `_Bool` and every type narrower than `int` become
`int`; the other types stay. -/
def promote : CType → CType
  | .bool => .sint intBits
  | .uint w => if w < intBits then .sint intBits else .uint w
  | .sint w => if w < intBits then .sint intBits else .sint w

/-- The usual arithmetic conversions: the common type of two operands.  After
promotion, two types of the same signedness give the wider one; an unsigned
and a signed type give the signed one when it is strictly wider (it holds every
value of the unsigned one) and the unsigned type of the larger width
otherwise. -/
def common (t u : CType) : CType :=
  match promote t, promote u with
  | .uint a, .uint b => .uint (max a b)
  | .sint a, .sint b => .sint (max a b)
  | .uint a, .sint b => if a < b then .sint b else .uint a
  | .sint a, .uint b => if b < a then .sint a else .uint b
  | .bool, c => c
  | c, .bool => c

/-- A binary operator `x op y` computed in the type `c`: both operands are
converted to `c`, and so is the result. -/
def binop (c : CType) (op : Int → Int → Int) (x y : Int) : Int :=
  conv c (op (conv c x) (conv c y))

/-- The operator `~x` on an operand of the type `c`. -/
def cnot (c : CType) (x : Int) : Int :=
  conv c (~~~ (conv c x))

/-- The operator `x == y` on operands of the types `t` and `u`: the values are
compared in the common type. -/
def ceq (t u : CType) (x y : Int) : Bool :=
  decide (conv (common t u) x = conv (common t u) y)

/-- One memory access: a read of a cell with the value read, or a write of a
cell with the value written. -/
inductive Event where
  | load (a : Addr) (v : Int)
  | store (a : Addr) (v : Int)
  deriving DecidableEq, Repr

/-- The machine state: the content of every cell and the accesses made so far,
oldest first. -/
structure State where
  mem : Addr → Int
  trace : List Event

/-- A C expression or statement: it runs on a state, and yields a value and the
state after its side effects. -/
abbrev M (α : Type) := StateM State α

/-- A value operand of an invocation: the type of the expression and its
evaluation. -/
structure Operand where
  ty : CType
  run : M Int

/-- An operand without side effects: the value `v`, of the type `ty`. -/
def Operand.lit (ty : CType) (v : Int) : Operand := ⟨ty, pure v⟩

/-- Reading the lvalue `*p`. -/
def load (a : Addr) : M Int := fun s =>
  (s.mem a, { s with trace := s.trace ++ [Event.load a (s.mem a)] })

/-- Writing the value `v` to the cell `a`. -/
def write (a : Addr) (v : Int) : M Unit := fun s =>
  ((), { mem := fun b => if b = a then v else s.mem b,
         trace := s.trace ++ [Event.store a v] })

/-- Storing `x` through an lvalue of the type `t`: the value is converted to
`t`; the result is the value of the lvalue after the store. -/
def store (t : CType) (a : Addr) (x : Int) : M Int := do
  write a (conv t x)
  pure (conv t x)

/-- The C expression `*lhs = rhs`, with `*lhs` of the type `t`. -/
def assign (t : CType) (lhs : M Addr) (rhs : M Int) : M Int := do
  let x ← rhs
  let p ← lhs
  store t p x

/-- The C expression `*lhs op= rhs`, for `op` one of `+ - | & ^` and `*lhs` of
the type `t`: the lvalue is designated once, read, and written with
`*lhs op rhs`, which is computed in the common type of the two operands. -/
def assignOp (t : CType) (op : Int → Int → Int) (lhs : M Addr) (rhs : Operand) :
    M Int := do
  let x ← rhs.run
  let p ← lhs
  let cur ← load p
  store t p (binop (common t rhs.ty) op cur x)

/-- The header, line 28:
`({ typeof((ptr)) __centrinel_ptr = (ptr);
    typeof (*__centrinel_ptr) __centrinel_tmp = *__centrinel_ptr;
    *__centrinel_ptr += (value); __centrinel_tmp; })`.
The operand of `typeof` is not evaluated; `t` is the type `typeof(*ptr)`. -/
def __sync_fetch_and_add (t : CType) (ptr : M Addr) (value : Operand) : M Int := do
  let __centrinel_ptr ← ptr
  let __centrinel_tmp ← load __centrinel_ptr
  let _ ← assignOp t (fun x y => x + y) (pure __centrinel_ptr) value
  pure __centrinel_tmp

/-- The header, line 29: as line 28 with `*__centrinel_ptr -= (value)`. -/
def __sync_fetch_and_sub (t : CType) (ptr : M Addr) (value : Operand) : M Int := do
  let __centrinel_ptr ← ptr
  let __centrinel_tmp ← load __centrinel_ptr
  let _ ← assignOp t (fun x y => x - y) (pure __centrinel_ptr) value
  pure __centrinel_tmp

/-- The header, line 30: as line 28 with `*__centrinel_ptr |= (value)`. -/
def __sync_fetch_and_or (t : CType) (ptr : M Addr) (value : Operand) : M Int := do
  let __centrinel_ptr ← ptr
  let __centrinel_tmp ← load __centrinel_ptr
  let _ ← assignOp t Int.lor (pure __centrinel_ptr) value
  pure __centrinel_tmp

/-- The header, line 31: as line 28 with `*__centrinel_ptr &= (value)`. -/
def __sync_fetch_and_and (t : CType) (ptr : M Addr) (value : Operand) : M Int := do
  let __centrinel_ptr ← ptr
  let __centrinel_tmp ← load __centrinel_ptr
  let _ ← assignOp t Int.land (pure __centrinel_ptr) value
  pure __centrinel_tmp

/-- The header, line 32: as line 28 with `*__centrinel_ptr ^= (value)`. -/
def __sync_fetch_and_xor (t : CType) (ptr : M Addr) (value : Operand) : M Int := do
  let __centrinel_ptr ← ptr
  let __centrinel_tmp ← load __centrinel_ptr
  let _ ← assignOp t Int.xor (pure __centrinel_ptr) value
  pure __centrinel_tmp

/-- The header, line 33:
`({ typeof((ptr)) __centrinel_ptr = (ptr);
    typeof (*__centrinel_ptr) __centrinel_tmp = *__centrinel_ptr;
    *__centrinel_ptr = ~(__centrinel_tmp & (value)); __centrinel_tmp; })`.
The operator `&` works in the common type of the temporary and `value`, and `~`
on its result. -/
def __sync_fetch_and_nand (t : CType) (ptr : M Addr) (value : Operand) : M Int := do
  let __centrinel_ptr ← ptr
  let __centrinel_tmp ← load __centrinel_ptr
  let _ ← assign t (pure __centrinel_ptr)
    (do let v ← value.run
        pure (cnot (common t value.ty)
          (binop (common t value.ty) Int.land __centrinel_tmp v)))
  pure __centrinel_tmp

/-- The header, line 35: `(*(ptr) += (value))`. -/
def __sync_add_and_fetch (t : CType) (ptr : M Addr) (value : Operand) : M Int :=
  assignOp t (fun x y => x + y) ptr value

/-- The header, line 36: `(*(ptr) -= (value))`. -/
def __sync_sub_and_fetch (t : CType) (ptr : M Addr) (value : Operand) : M Int :=
  assignOp t (fun x y => x - y) ptr value

/-- The header, line 37: `(*(ptr) |= (value))`. -/
def __sync_or_and_fetch (t : CType) (ptr : M Addr) (value : Operand) : M Int :=
  assignOp t Int.lor ptr value

/-- The header, line 38: `(*(ptr) &= (value))`. -/
def __sync_and_and_fetch (t : CType) (ptr : M Addr) (value : Operand) : M Int :=
  assignOp t Int.land ptr value

/-- The header, line 39: `(*(ptr) ^= (value))`. -/
def __sync_xor_and_fetch (t : CType) (ptr : M Addr) (value : Operand) : M Int :=
  assignOp t Int.xor ptr value

/-- The header, line 40:
`({ typeof((ptr)) __centrinel_ptr = (ptr);
    *__centrinel_ptr = ~(*__centrinel_ptr & (value)); *__centrinel_ptr; })`.
The right operand of the assignment reads `*__centrinel_ptr`, then evaluates
`value`; the last expression reads `*__centrinel_ptr` again. -/
def __sync_nand_and_fetch (t : CType) (ptr : M Addr) (value : Operand) : M Int := do
  let __centrinel_ptr ← ptr
  let _ ← assign t (pure __centrinel_ptr)
    (do let cur ← load __centrinel_ptr
        let v ← value.run
        pure (cnot (common t value.ty) (binop (common t value.ty) Int.land cur v)))
  load __centrinel_ptr

/-- The header, line 42:
`({ typeof((ptr)) __centrinel_ptr = (ptr);
    (*__centrinel_ptr == (oldval)) ? ((*__centrinel_ptr = (newval)), 1) : 0; })`. -/
def __sync_bool_compare_and_swap (t : CType) (ptr : M Addr) (oldval newval : Operand) :
    M Int := do
  let __centrinel_ptr ← ptr
  let cur ← load __centrinel_ptr
  let o ← oldval.run
  if ceq t oldval.ty cur o then
    let _ ← assign t (pure __centrinel_ptr) newval.run
    pure 1
  else
    pure 0

/-- The header, line 44:
`({ typeof((ptr)) __centrinel_ptr = (ptr);
    typeof(*__centrinel_ptr) __centrinel_tmp = *__centrinel_ptr;
    if (*__centrinel_ptr == (oldval)) { *__centrinel_ptr = (newval); };
    __centrinel_tmp; })`. -/
def __sync_val_compare_and_swap (t : CType) (ptr : M Addr) (oldval newval : Operand) :
    M Int := do
  let __centrinel_ptr ← ptr
  let __centrinel_tmp ← load __centrinel_ptr
  let cur ← load __centrinel_ptr
  let o ← oldval.run
  if ceq t oldval.ty cur o then
    let _ ← assign t (pure __centrinel_ptr) newval.run
    pure ()
  else
    pure ()
  pure __centrinel_tmp

/-- The header, line 46: `__sync_synchronize(...)` expands to nothing, so no
argument of the invocation is evaluated. -/
def __sync_synchronize (_args : List Operand) : M Unit :=
  pure ()

/-- The header, line 48:
`({ typeof((ptr)) __centrinel_ptr = (ptr);
    typeof (*__centrinel_ptr) __centrinel_tmp = *__centrinel_ptr;
    *__centrinel_ptr = (value); __centrinel_tmp; })`. -/
def __sync_lock_test_and_set (t : CType) (ptr : M Addr) (value : Operand) : M Int := do
  let __centrinel_ptr ← ptr
  let __centrinel_tmp ← load __centrinel_ptr
  let _ ← assign t (pure __centrinel_ptr) value.run
  pure __centrinel_tmp

/-- The header, line 50: `do { *(ptr) = 0; } while (0)`, a statement: it has no
value. -/
def __sync_lock_release (t : CType) (ptr : M Addr) : M Unit := do
  let _ ← assign t ptr (pure 0)
  pure ()

/-- The operations of the header that take a pointer operand, one per
definition of lines 28 to 50 (all but `__sync_synchronize`). -/
inductive PtrOp where
  | fetch_and_add | fetch_and_sub | fetch_and_or | fetch_and_and | fetch_and_xor
  | fetch_and_nand
  | add_and_fetch | sub_and_fetch | or_and_fetch | and_and_fetch | xor_and_fetch
  | nand_and_fetch
  | bool_compare_and_swap | val_compare_and_swap
  | lock_test_and_set | lock_release
  deriving DecidableEq, Repr

/-- One invocation of a pointer-taking operation on a pointee of the type `t`:
`x` is its first value operand (`value` or `oldval`) and `y` its second
(`newval`); an operand the operation does not have is not used.  The result is
the value of the expansion, `none` for the statement `__sync_lock_release`. -/
def PtrOp.invoke (op : PtrOp) (t : CType) (ptr : M Addr) (x y : Operand) :
    M (Option Int) :=
  match op with
  | .fetch_and_add => some <$> __sync_fetch_and_add t ptr x
  | .fetch_and_sub => some <$> __sync_fetch_and_sub t ptr x
  | .fetch_and_or => some <$> __sync_fetch_and_or t ptr x
  | .fetch_and_and => some <$> __sync_fetch_and_and t ptr x
  | .fetch_and_xor => some <$> __sync_fetch_and_xor t ptr x
  | .fetch_and_nand => some <$> __sync_fetch_and_nand t ptr x
  | .add_and_fetch => some <$> __sync_add_and_fetch t ptr x
  | .sub_and_fetch => some <$> __sync_sub_and_fetch t ptr x
  | .or_and_fetch => some <$> __sync_or_and_fetch t ptr x
  | .and_and_fetch => some <$> __sync_and_and_fetch t ptr x
  | .xor_and_fetch => some <$> __sync_xor_and_fetch t ptr x
  | .nand_and_fetch => some <$> __sync_nand_and_fetch t ptr x
  | .bool_compare_and_swap => some <$> __sync_bool_compare_and_swap t ptr x y
  | .val_compare_and_swap => some <$> __sync_val_compare_and_swap t ptr x y
  | .lock_test_and_set => some <$> __sync_lock_test_and_set t ptr x
  | .lock_release => (fun _ => none) <$> __sync_lock_release t ptr

/-- A value operand with an observable side effect, the C function
`T counted(void) { calls++; return v; }` with `T` the type `ty`: every
evaluation adds one to the cell `c` that holds `calls` and yields `v`. -/
def countingVal (c : Addr) (ty : CType) (v : Int) : Operand :=
  ⟨ty, do
    let n ← load c
    write c (n + 1)
    pure v⟩

/-- The parameter list of a `#define`: the number of named parameters, and
whether the list ends in `...`. -/
structure Params where
  named : Nat
  variadic : Bool
  deriving DecidableEq, Repr

/-- Whether the preprocessor accepts an invocation with `n` arguments: at least
the named ones when the list ends in `...` (GNU C lets the variable part be
empty), exactly the named ones otherwise. -/
def Params.accepts (p : Params) (n : Nat) : Bool :=
  if p.variadic then decide (p.named ≤ n) else decide (n = p.named)

/-- The parameter lists of the header: `(ptr,value,...)` on lines 28 to 40,
`(ptr,oldval,newval)` on lines 42 and 44, `(ptr,value)` on line 48 and `(ptr)`
on line 50. -/
def PtrOp.params : PtrOp → Params
  | .fetch_and_add | .fetch_and_sub | .fetch_and_or | .fetch_and_and | .fetch_and_xor
  | .fetch_and_nand => ⟨2, true⟩
  | .add_and_fetch | .sub_and_fetch | .or_and_fetch | .and_and_fetch | .xor_and_fetch
  | .nand_and_fetch => ⟨2, true⟩
  | .bool_compare_and_swap | .val_compare_and_swap => ⟨3, false⟩
  | .lock_test_and_set => ⟨2, false⟩
  | .lock_release => ⟨1, false⟩

/-- The parameter list `(...)` of `__sync_synchronize`, line 46. -/
def synchronizeParams : Params := ⟨0, true⟩

/-- The invocation `op(ptr, args...)` as the preprocessor sees it: `none` when
the number of arguments does not fit the parameter list (the translation unit
is rejected); otherwise the named parameters take the leading arguments and the
arguments matched by `...`, which no replacement list mentions, are dropped. -/
def PtrOp.call (op : PtrOp) (t : CType) (ptr : M Addr) (args : List Operand) :
    Option (M (Option Int)) :=
  if op.params.accepts (args.length + 1) then
    some (op.invoke t ptr (args.getD 0 (Operand.lit (.sint intBits) 0))
      (args.getD 1 (Operand.lit (.sint intBits) 0)))
  else
    none

/-- The invocation `__sync_synchronize(args...)` as the preprocessor sees it. -/
def synchronizeCall (args : List Operand) : Option (M Unit) :=
  if synchronizeParams.accepts args.length then some (__sync_synchronize args) else none

/-- Preprocessing tokens, as far as the object-like definitions of the header
need them. -/
inductive Tok where
  | ident (name : String)
  | lparen
  | rparen
  | num (n : Nat)
  deriving DecidableEq, Repr

/-- The object-like definitions of the header with their replacement lists:
line 9 `__CENTRINEL__ 1`, line 14 `__CENTRINEL_HACK_SYNC_ATOMICS 1`, line 17
`__CENTRINEL_MANAGED_REGION __region(1)` and line 20
`__CENTRINEL_MANAGED_ATTR __attribute__((__CENTRINEL_MANAGED_REGION))`. -/
def objectDefs : List (String × List Tok) :=
  [("__CENTRINEL__", [.num 1]),
   ("__CENTRINEL_HACK_SYNC_ATOMICS", [.num 1]),
   ("__CENTRINEL_MANAGED_REGION", [.ident "__region", .lparen, .num 1, .rparen]),
   ("__CENTRINEL_MANAGED_ATTR",
      [.ident "__attribute__", .lparen, .lparen, .ident "__CENTRINEL_MANAGED_REGION",
       .rparen, .rparen])]

/-- Replacement of one token: an identifier defined by the header is replaced
by its replacement list, any other token stays. -/
def replaceTok : Tok → List Tok
  | .ident name =>
    match objectDefs.lookup name with
    | some body => body
    | none => [.ident name]
  | t => [t]

/-- Whether a token is an identifier the header defines. -/
def isDefined : Tok → Bool
  | .ident name => (objectDefs.lookup name).isSome
  | _ => false

/-- Expansion with rescanning: the tokens are replaced, and the result is
scanned again, at most `fuel` times, until no defined identifier is left. -/
def expand : Nat → List Tok → List Tok
  | 0, ts => ts
  | fuel + 1, ts => if ts.any isDefined then expand fuel (ts.flatMap replaceTok) else ts

/-- The memory accesses a computation makes from the memory of `s`, oldest
first. -/
def accesses {α : Type} (m : M α) (s : State) : List Event :=
  (m { s with trace := [] }).2.trace

/-- Whether an access is a read of the cell `a`. -/
def Event.isLoadOf (a : Addr) : Event → Bool
  | .load b _ => decide (b = a)
  | .store _ _ => false

/-- Whether an access is a write of the cell `a`. -/
def Event.isStoreOf (a : Addr) : Event → Bool
  | .load _ _ => false
  | .store b _ => decide (b = a)

/-- Whether a sequence of accesses has exactly one read of the cell `a`, and no
write of `a` before that read. -/
def loadsOnceBeforeStores (a : Addr) (es : List Event) : Bool :=
  decide (es.countP (Event.isLoadOf a) = 1) &&
    (es.takeWhile (fun e => !Event.isLoadOf a e)).all (fun e => !Event.isStoreOf a e)

/-- The state in which every cell holds `v` and nothing has been accessed. -/
def initState (v : Int) : State := ⟨fun _ => v, []⟩

/-- The complement of an integer, converted to an unsigned type of `w` bits, is
the all-ones value `2 ^ w - 1` minus the converted integer. -/
theorem not_emod_two_pow (x : Int) (w : Nat) :
    (~~~ x) % 2 ^ w = 2 ^ w - 1 - x % 2 ^ w := by
  have hpos : (0 : Int) < 2 ^ w := by positivity
  have hx : (~~~ x) = -x - 1 := by
    cases x with
    | ofNat n => show Int.negSucc n = -(n : Int) - 1; rw [Int.negSucc_eq]; ring
    | negSucc n => show (n : Int) = -(Int.negSucc n) - 1; rw [Int.negSucc_eq]; ring
  have h1 := Int.emod_add_ediv x (2 ^ w)
  have h2 := Int.emod_nonneg x (ne_of_gt hpos)
  have h3 := Int.emod_lt_of_pos x hpos
  have h4 : -x - 1 = (2 ^ w - 1 - x % 2 ^ w) + 2 ^ w * (-(x / 2 ^ w) - 1) := by
    linear_combination h1
  rw [hx, h4, Int.add_mul_emod_self_left]
  exact Int.emod_eq_of_lt (by omega) (by omega)

/-- The residue of `2 * m + a` modulo `2 ^ (w + 1)`, from the residue of `m`
modulo `2 ^ w`. -/
theorem bit_emod_two_pow_succ (a : Bool) (m : Int) (w : Nat) :
    Int.bit a m % 2 ^ (w + 1) = 2 * (m % 2 ^ w) + cond a 1 0 := by
  have hpos : (0 : Int) < 2 ^ w := by positivity
  have h1 := Int.emod_add_ediv m (2 ^ w)
  have h2 := Int.emod_nonneg m (ne_of_gt hpos)
  have h3 := Int.emod_lt_of_pos m hpos
  have h4 : Int.bit a m = (2 * (m % 2 ^ w) + cond a 1 0) + 2 ^ (w + 1) * (m / 2 ^ w) := by
    rw [Int.bit_val, pow_succ]
    linear_combination (-2 : Int) * h1
  rw [h4, Int.add_mul_emod_self_left]
  apply Int.emod_eq_of_lt
  · cases a <;> simp <;> omega
  · rw [pow_succ]; cases a <;> simp <;> omega

/-- A bitwise operator respects congruence modulo `2 ^ w`. -/
theorem bitop_emod_two_pow (op : Int → Int → Int) (g : Bool → Bool → Bool)
    (hbit : ∀ a m b n, op (Int.bit a m) (Int.bit b n) = Int.bit (g a b) (op m n))
    (w : Nat) : ∀ x x' y y' : Int, x % 2 ^ w = x' % 2 ^ w → y % 2 ^ w = y' % 2 ^ w →
      op x y % 2 ^ w = op x' y' % 2 ^ w := by
  induction w with
  | zero => intro x x' y y' _ _; simp [Int.emod_one]
  | succ w ih =>
    intro x x' y y' hx hy
    obtain ⟨a, m, rfl⟩ : ∃ a m, x = Int.bit a m := ⟨_, _, (Int.bit_decomp x).symm⟩
    obtain ⟨a', m', rfl⟩ : ∃ a m, x' = Int.bit a m := ⟨_, _, (Int.bit_decomp x').symm⟩
    obtain ⟨b, n, rfl⟩ : ∃ a m, y = Int.bit a m := ⟨_, _, (Int.bit_decomp y).symm⟩
    obtain ⟨b', n', rfl⟩ : ∃ a m, y' = Int.bit a m := ⟨_, _, (Int.bit_decomp y').symm⟩
    rw [bit_emod_two_pow_succ, bit_emod_two_pow_succ] at hx hy
    rw [hbit, hbit, bit_emod_two_pow_succ, bit_emod_two_pow_succ]
    have hxb : a = a' := by
      cases a <;> cases a' <;> simp at hx ⊢ <;> omega
    have hyb : b = b' := by
      cases b <;> cases b' <;> simp at hy ⊢ <;> omega
    subst hxb hyb
    have hxm : m % 2 ^ w = m' % 2 ^ w := by omega
    have hym : n % 2 ^ w = n' % 2 ^ w := by omega
    rw [ih _ _ _ _ hxm hym]

/-- The operator `&` respects congruence modulo `2 ^ w`. -/
theorem land_emod (w : Nat) (x x' y y' : Int) (hx : x % 2 ^ w = x' % 2 ^ w)
    (hy : y % 2 ^ w = y' % 2 ^ w) : Int.land x y % 2 ^ w = Int.land x' y' % 2 ^ w :=
  bitop_emod_two_pow Int.land (fun a b => a && b) Int.land_bit w x x' y y' hx hy

/-- The operator `|` respects congruence modulo `2 ^ w`. -/
theorem lor_emod (w : Nat) (x x' y y' : Int) (hx : x % 2 ^ w = x' % 2 ^ w)
    (hy : y % 2 ^ w = y' % 2 ^ w) : Int.lor x y % 2 ^ w = Int.lor x' y' % 2 ^ w :=
  bitop_emod_two_pow Int.lor (fun a b => a || b) Int.lor_bit w x x' y y' hx hy

/-- The operator `^` respects congruence modulo `2 ^ w`. -/
theorem xor_emod (w : Nat) (x x' y y' : Int) (hx : x % 2 ^ w = x' % 2 ^ w)
    (hy : y % 2 ^ w = y' % 2 ^ w) : Int.xor x y % 2 ^ w = Int.xor x' y' % 2 ^ w :=
  bitop_emod_two_pow Int.xor (fun a b => xor a b) Int.lxor_bit w x x' y y' hx hy

/-- The complement respects congruence modulo `2 ^ w`. -/
theorem not_emod (w : Nat) (x x' : Int) (hx : x % 2 ^ w = x' % 2 ^ w) :
    (~~~ x) % 2 ^ w = (~~~ x') % 2 ^ w := by
  rw [not_emod_two_pow, not_emod_two_pow, hx]

/-- Addition respects congruence modulo `2 ^ w`. -/
theorem add_emod (w : Nat) (x x' y y' : Int) (hx : x % 2 ^ w = x' % 2 ^ w)
    (hy : y % 2 ^ w = y' % 2 ^ w) : (x + y) % 2 ^ w = (x' + y') % 2 ^ w :=
  Int.ModEq.add hx hy

/-- Subtraction respects congruence modulo `2 ^ w`. -/
theorem sub_emod (w : Nat) (x x' y y' : Int) (hx : x % 2 ^ w = x' % 2 ^ w)
    (hy : y % 2 ^ w = y' % 2 ^ w) : (x - y) % 2 ^ w = (x' - y') % 2 ^ w :=
  Int.ModEq.sub hx hy

/-- Congruence modulo `2 ^ W` gives congruence modulo a smaller power of 2. -/
theorem emod_of_le (w W : Nat) (x y : Int) (hw : w ≤ W) (h : x % 2 ^ W = y % 2 ^ W) :
    x % 2 ^ w = y % 2 ^ w :=
  Int.ModEq.of_dvd (pow_dvd_pow (2 : Int) hw) h

/-- Conversion to a type other than `_Bool` keeps the residue modulo
`2 ^ width`. -/
theorem conv_emod (t : CType) (x : Int) (ht : t ≠ CType.bool) :
    conv t x % 2 ^ t.width = x % 2 ^ t.width := by
  cases t with
  | bool => exact absurd rfl ht
  | uint w => simp [conv, CType.width]
  | sint w =>
    simp only [conv, CType.width]
    split
    · simp
    · rw [Int.sub_emod, Int.emod_self, sub_zero, Int.emod_emod, Int.emod_emod]

/-- Conversion to a type yields a value of the type. -/
theorem conv_holds (t : CType) (x : Int) : t.holds (conv t x) := by
  have hpos : ∀ w : Nat, (0 : Int) < 2 ^ w := fun w => by positivity
  cases t with
  | bool => by_cases h : x = 0 <;> simp [conv, CType.holds, h]
  | uint w =>
    exact ⟨Int.emod_nonneg x (ne_of_gt (hpos w)), Int.emod_lt_of_pos x (hpos w)⟩
  | sint w =>
    have h2 := Int.emod_nonneg x (ne_of_gt (hpos w))
    have h3 := Int.emod_lt_of_pos x (hpos w)
    simp only [conv, CType.holds]
    split <;> constructor <;> omega

/-- A value of a type is unchanged by conversion to the type. -/
theorem conv_of_holds (t : CType) (x : Int) (h : t.holds x) : conv t x = x := by
  have hpos : ∀ w : Nat, (0 : Int) < 2 ^ w := fun w => by positivity
  cases t with
  | bool => rcases h with h | h <;> simp [conv, h]
  | uint w => exact Int.emod_eq_of_lt h.1 h.2
  | sint w =>
    obtain ⟨h1, h2⟩ := h
    have hp := hpos w
    simp only [conv]
    by_cases hx : 0 ≤ x
    · have hm : x % 2 ^ w = x := Int.emod_eq_of_lt hx (by omega)
      rw [hm, if_pos h2]
    · have hm : x % 2 ^ w = x + 2 ^ w := by
        have h5 : x % 2 ^ w = ((x + 2 ^ w) + 2 ^ w * (-1)) % 2 ^ w := by
          congr 1; ring
        rw [h5, Int.add_mul_emod_self_left]
        apply Int.emod_eq_of_lt <;> omega
      have hlt : ¬ (2 * (x + 2 ^ w) < 2 ^ w) := by omega
      rw [hm, if_neg hlt]
      ring

/-- Promotion never yields `_Bool`. -/
theorem promote_ne_bool (t : CType) : promote t ≠ CType.bool := by
  cases t <;> simp [promote] <;> split_ifs <;> simp

/-- Promotion never narrows a type. -/
theorem width_le_promote (t : CType) : t.width ≤ (promote t).width := by
  cases t <;> simp [promote, intBits, CType.width] <;> split_ifs <;>
    simp [CType.width] <;> omega

/-- The common type of two operands is never `_Bool`. -/
theorem common_ne_bool (t u : CType) : common t u ≠ CType.bool := by
  have h1 := promote_ne_bool t
  have h2 := promote_ne_bool u
  unfold common
  cases hp : promote t <;> cases hq : promote u <;> simp_all <;> split_ifs <;> simp

/-- The common type of two operands is at least as wide as the first. -/
theorem width_le_common (t u : CType) : t.width ≤ (common t u).width := by
  have h0 := width_le_promote t
  have h1 := promote_ne_bool t
  have h2 := promote_ne_bool u
  unfold common
  cases hp : promote t <;> cases hq : promote u <;> simp_all [CType.width] <;>
    split_ifs <;> simp [CType.width] <;> omega

/-- Conversion to the common type keeps the residue modulo `2 ^ width` of the
first operand type. -/
theorem conv_common_emod (t u : CType) (x : Int) :
    conv (common t u) x % 2 ^ t.width = x % 2 ^ t.width :=
  emod_of_le _ _ _ _ (width_le_common t u) (conv_emod _ x (common_ne_bool t u))

/-- The value stored by `*p op= d` through a pointee other than `_Bool` is
congruent modulo `2 ^ width` to `v op d` on the integers, when `op` respects
that congruence. -/
theorem store_binop_emod (op : Int → Int → Int)
    (hop : ∀ (w : Nat) (x x' y y' : Int), x % 2 ^ w = x' % 2 ^ w → y % 2 ^ w = y' % 2 ^ w →
      op x y % 2 ^ w = op x' y' % 2 ^ w)
    (t u : CType) (v d : Int) (ht : t ≠ CType.bool) :
    conv t (binop (common t u) op v d) % 2 ^ t.width = op v d % 2 ^ t.width := by
  rw [conv_emod t _ ht, binop, conv_common_emod]
  have hd : conv (common t u) d % 2 ^ t.width = d % 2 ^ t.width :=
    emod_of_le _ _ _ _ (width_le_common t u) (conv_emod _ d (common_ne_bool t u))
  exact hop _ _ _ _ _ (conv_common_emod t u v) hd

/-- The value stored by `*p = ~(v & d)` through a pointee other than `_Bool` is
congruent modulo `2 ^ width` to the complement of `v & d` on the integers. -/
theorem store_nand_emod (t u : CType) (v d : Int) (ht : t ≠ CType.bool) :
    conv t (cnot (common t u) (binop (common t u) Int.land v d)) % 2 ^ t.width
      = (~~~ (Int.land v d)) % 2 ^ t.width := by
  rw [conv_emod t _ ht, cnot, conv_common_emod]
  apply not_emod
  rw [conv_common_emod, binop, conv_common_emod]
  have hd : conv (common t u) d % 2 ^ t.width = d % 2 ^ t.width :=
    emod_of_le _ _ _ _ (width_le_common t u) (conv_emod _ d (common_ne_bool t u))
  exact land_emod _ _ _ _ _ (conv_common_emod t u v) hd

/-- A value of a type is a value of the promoted type. -/
theorem holds_promote (t : CType) (x : Int) (h : t.holds x) : (promote t).holds x := by
  have h31 : ∀ w : Nat, w < 32 → (2 : Int) ^ w * 2 ≤ 2 ^ 32 := by
    intro w hw
    have h1 : (2 : Int) ^ (w + 1) ≤ 2 ^ 32 :=
      pow_le_pow_right₀ (by norm_num) (by omega)
    rwa [pow_succ] at h1
  have hpos : ∀ w : Nat, (0 : Int) < 2 ^ w := fun w => by positivity
  cases t with
  | bool =>
    rcases h with h | h <;> simp [promote, intBits, CType.holds, h]
  | uint w =>
    simp only [promote, intBits]
    split
    · rename_i hw
      have := h31 w hw
      have := hpos w
      obtain ⟨h1, h2⟩ := h
      constructor <;> omega
    · exact h
  | sint w =>
    simp only [promote, intBits]
    split
    · rename_i hw
      have := h31 w hw
      have := hpos w
      obtain ⟨h1, h2⟩ := h
      constructor <;> omega
    · exact h

/-- On two values of the same type, `==` is equality. -/
theorem ceq_same_type (t : CType) (x y : Int) (hx : t.holds x) (hy : t.holds y) :
    ceq t t x y = true ↔ x = y := by
  have hc : common t t = promote t := by
    have h1 := promote_ne_bool t
    unfold common
    cases hp : promote t <;> simp_all
  simp [ceq, hc, conv_of_holds _ _ (holds_promote t x hx),
    conv_of_holds _ _ (holds_promote t y hy)]

/-- Claim C1 as stated fails on a `_Bool` pointee, whose width is 1: with
`b == 1`, `__sync_fetch_and_add(&b, 1)` leaves `b == 1`, where `1 + 1` modulo
`2 ^ 1` is 0.  On the signed `int x = 5`, `__sync_fetch_and_sub(&x, 8)` leaves
`-3`, the value of the type congruent to `5 - 8`, not the residue
4294967293. -/
theorem fetch_and_op_modulo_fails :
    ¬ ((__sync_fetch_and_add CType.bool (pure 0) (Operand.lit (CType.sint 32) 1)
          (initState 1)).2.mem 0
        = ((initState 1).mem 0 + 1) % 2 ^ CType.bool.width) ∧
    ¬ ((__sync_fetch_and_sub (CType.sint 32) (pure 0) (Operand.lit (CType.sint 32) 8)
          (initState 5)).2.mem 0
        = ((initState 5).mem 0 - 8) % 2 ^ (CType.sint 32).width) := by
  decide

/-- Claim C1, amended: for every integer pointee type `t`, every initial value
and every operand `d` of any type `td`, each of `__sync_fetch_and_add`, `_sub`,
`_or`, `_and`, `_xor` returns the value the variable held before the update and
leaves the variable equal to the C value of `v op d` converted to `t`, a value
of `t`; when `t` is not `_Bool` that is the value of `t` congruent to `v op d`
modulo `2 ^ w`, `w` being the width of `t`. -/
theorem fetch_and_op_returns_old_and_updates (t td : CType) (a : Addr) (d : Int)
    (s : State) :
    (((__sync_fetch_and_add t (pure a) (Operand.lit td d) s).1 = s.mem a) ∧
      (__sync_fetch_and_add t (pure a) (Operand.lit td d) s).2.mem a
        = conv t (binop (common t td) (fun x y => x + y) (s.mem a) d) ∧
      (t ≠ CType.bool →
        (__sync_fetch_and_add t (pure a) (Operand.lit td d) s).2.mem a % 2 ^ t.width
          = (s.mem a + d) % 2 ^ t.width) ∧
      t.holds ((__sync_fetch_and_add t (pure a) (Operand.lit td d) s).2.mem a)) ∧
    (((__sync_fetch_and_sub t (pure a) (Operand.lit td d) s).1 = s.mem a) ∧
      (__sync_fetch_and_sub t (pure a) (Operand.lit td d) s).2.mem a
        = conv t (binop (common t td) (fun x y => x - y) (s.mem a) d) ∧
      (t ≠ CType.bool →
        (__sync_fetch_and_sub t (pure a) (Operand.lit td d) s).2.mem a % 2 ^ t.width
          = (s.mem a - d) % 2 ^ t.width) ∧
      t.holds ((__sync_fetch_and_sub t (pure a) (Operand.lit td d) s).2.mem a)) ∧
    (((__sync_fetch_and_or t (pure a) (Operand.lit td d) s).1 = s.mem a) ∧
      (__sync_fetch_and_or t (pure a) (Operand.lit td d) s).2.mem a
        = conv t (binop (common t td) Int.lor (s.mem a) d) ∧
      (t ≠ CType.bool →
        (__sync_fetch_and_or t (pure a) (Operand.lit td d) s).2.mem a % 2 ^ t.width
          = Int.lor (s.mem a) d % 2 ^ t.width) ∧
      t.holds ((__sync_fetch_and_or t (pure a) (Operand.lit td d) s).2.mem a)) ∧
    (((__sync_fetch_and_and t (pure a) (Operand.lit td d) s).1 = s.mem a) ∧
      (__sync_fetch_and_and t (pure a) (Operand.lit td d) s).2.mem a
        = conv t (binop (common t td) Int.land (s.mem a) d) ∧
      (t ≠ CType.bool →
        (__sync_fetch_and_and t (pure a) (Operand.lit td d) s).2.mem a % 2 ^ t.width
          = Int.land (s.mem a) d % 2 ^ t.width) ∧
      t.holds ((__sync_fetch_and_and t (pure a) (Operand.lit td d) s).2.mem a)) ∧
    (((__sync_fetch_and_xor t (pure a) (Operand.lit td d) s).1 = s.mem a) ∧
      (__sync_fetch_and_xor t (pure a) (Operand.lit td d) s).2.mem a
        = conv t (binop (common t td) Int.xor (s.mem a) d) ∧
      (t ≠ CType.bool →
        (__sync_fetch_and_xor t (pure a) (Operand.lit td d) s).2.mem a % 2 ^ t.width
          = Int.xor (s.mem a) d % 2 ^ t.width) ∧
      t.holds ((__sync_fetch_and_xor t (pure a) (Operand.lit td d) s).2.mem a)) := by
  have hadd : (__sync_fetch_and_add t (pure a) (Operand.lit td d) s).2.mem a
      = conv t (binop (common t td) (fun x y => x + y) (s.mem a) d) := by
    simp [__sync_fetch_and_add, assign, assignOp, load, store, write, Operand.lit, bind, StateT.bind,
        pure,
      StateT.pure]
  have hsub : (__sync_fetch_and_sub t (pure a) (Operand.lit td d) s).2.mem a
      = conv t (binop (common t td) (fun x y => x - y) (s.mem a) d) := by
    simp [__sync_fetch_and_sub, assign, assignOp, load, store, write, Operand.lit, bind, StateT.bind,
        pure,
      StateT.pure]
  have hor : (__sync_fetch_and_or t (pure a) (Operand.lit td d) s).2.mem a
      = conv t (binop (common t td) Int.lor (s.mem a) d) := by
    simp [__sync_fetch_and_or, assign, assignOp, load, store, write, Operand.lit, bind, StateT.bind,
        pure,
      StateT.pure]
  have hand : (__sync_fetch_and_and t (pure a) (Operand.lit td d) s).2.mem a
      = conv t (binop (common t td) Int.land (s.mem a) d) := by
    simp [__sync_fetch_and_and, assign, assignOp, load, store, write, Operand.lit, bind, StateT.bind,
        pure,
      StateT.pure]
  have hxor : (__sync_fetch_and_xor t (pure a) (Operand.lit td d) s).2.mem a
      = conv t (binop (common t td) Int.xor (s.mem a) d) := by
    simp [__sync_fetch_and_xor, assign, assignOp, load, store, write, Operand.lit, bind, StateT.bind,
        pure,
      StateT.pure]
  refine ⟨?_, ?_, ?_, ?_, ?_⟩
  · exact ⟨by simp [__sync_fetch_and_add, assign, assignOp, load, store, write, Operand.lit, bind,
      StateT.bind, pure,
      StateT.pure],
      hadd,
      fun ht => by
        rw [hadd]
        exact store_binop_emod _ (fun w x x' y y' hx hy => add_emod w x x' y y' hx hy) t td _ _ ht,
      by rw [hadd]; exact conv_holds _ _⟩
  · exact ⟨by simp [__sync_fetch_and_sub, assign, assignOp, load, store, write, Operand.lit, bind,
      StateT.bind, pure,
      StateT.pure],
      hsub,
      fun ht => by
        rw [hsub]
        exact store_binop_emod _ (fun w x x' y y' hx hy => sub_emod w x x' y y' hx hy) t td _ _ ht,
      by rw [hsub]; exact conv_holds _ _⟩
  · exact ⟨by simp [__sync_fetch_and_or, assign, assignOp, load, store, write, Operand.lit, bind,
      StateT.bind, pure,
      StateT.pure],
      hor,
      fun ht => by
        rw [hor]
        exact store_binop_emod _ (fun w x x' y y' hx hy => lor_emod w x x' y y' hx hy) t td _ _ ht,
      by rw [hor]; exact conv_holds _ _⟩
  · exact ⟨by simp [__sync_fetch_and_and, assign, assignOp, load, store, write, Operand.lit, bind,
      StateT.bind, pure,
      StateT.pure],
      hand,
      fun ht => by
        rw [hand]
        exact store_binop_emod _ (fun w x x' y y' hx hy => land_emod w x x' y y' hx hy) t td _ _ ht,
      by rw [hand]; exact conv_holds _ _⟩
  · exact ⟨by simp [__sync_fetch_and_xor, assign, assignOp, load, store, write, Operand.lit, bind,
      StateT.bind, pure,
      StateT.pure],
      hxor,
      fun ht => by
        rw [hxor]
        exact store_binop_emod _ (fun w x x' y y' hx hy => xor_emod w x x' y y' hx hy) t td _ _ ht,
      by rw [hxor]; exact conv_holds _ _⟩

/-- Claim C1, amended, on the example of the specification: with `int x = 5`,
`__sync_fetch_and_add(&x, 3)` returns 5 and leaves `x == 8`; and
`__sync_fetch_and_sub(&x, 8)` returns 5 and leaves `x == -3`. -/
theorem fetch_and_op_returns_old_and_updates_witness :
    ((__sync_fetch_and_add (CType.sint 32) (pure 0) (Operand.lit (CType.sint 32) 3)
        (initState 5)).1 = 5 ∧
      (__sync_fetch_and_add (CType.sint 32) (pure 0) (Operand.lit (CType.sint 32) 3)
        (initState 5)).2.mem 0 = 8) ∧
    ((__sync_fetch_and_sub (CType.sint 32) (pure 0) (Operand.lit (CType.sint 32) 8)
        (initState 5)).1 = 5 ∧
      (__sync_fetch_and_sub (CType.sint 32) (pure 0) (Operand.lit (CType.sint 32) 8)
        (initState 5)).2.mem 0 = -3) :=
  ⟨⟨(fetch_and_op_returns_old_and_updates (CType.sint 32) (CType.sint 32) 0 3
        (initState 5)).1.1,
      (fetch_and_op_returns_old_and_updates (CType.sint 32) (CType.sint 32) 0 3
        (initState 5)).1.2.1.trans (by decide)⟩,
    ⟨(fetch_and_op_returns_old_and_updates (CType.sint 32) (CType.sint 32) 0 8
        (initState 5)).2.1.1,
      (fetch_and_op_returns_old_and_updates (CType.sint 32) (CType.sint 32) 0 8
        (initState 5)).2.1.2.1.trans (by decide)⟩⟩

/-- Claim C2 as stated fails: with `uint8_t x = 5`,
`__sync_bool_compare_and_swap(&x, 5, 261)` finds `x == 5` and returns 1, but
leaves `x == 5`, the value 261 converted to the pointee type, not 261. -/
theorem bool_compare_and_swap_newval_fails :
    ¬ ((initState 5).mem 0 = 5 →
      (__sync_bool_compare_and_swap (CType.uint 8) (pure 0) (Operand.lit (CType.sint 32) 5)
        (Operand.lit (CType.sint 32) 261) (initState 5)).1 = 1 ∧
      (__sync_bool_compare_and_swap (CType.uint 8) (pure 0) (Operand.lit (CType.sint 32) 5)
        (Operand.lit (CType.sint 32) 261) (initState 5)).2.mem 0 = 261) := by
  decide

/-- Claim C2, amended: for every pointee type `t`, every initial value `v` of
`*ptr` and all operands `oldval` and `newval` of any types,
`__sync_bool_compare_and_swap(ptr, oldval, newval)` returns 1 and leaves `*ptr`
equal to `newval` converted to `t` (to `newval` itself when that is a value of
`t`) when `v == oldval`, and returns 0 and leaves `*ptr` equal to `v` when
`v != oldval`, `==` being the comparison of C (plain
equality on two values of the type `t`); it returns only 0 or 1 and makes one
attempt: one read of `*ptr`, followed by one write exactly when the comparison
held. -/
theorem bool_compare_and_swap_contract (t told tnew : CType) (a : Addr) (oldval newval : Int)
    (s : State) :
    (ceq t told (s.mem a) oldval = true →
      (__sync_bool_compare_and_swap t (pure a) (Operand.lit told oldval)
          (Operand.lit tnew newval) s).1 = 1 ∧
      (__sync_bool_compare_and_swap t (pure a) (Operand.lit told oldval)
          (Operand.lit tnew newval) s).2.mem a = conv t newval ∧
      (t.holds newval →
        (__sync_bool_compare_and_swap t (pure a) (Operand.lit told oldval)
            (Operand.lit tnew newval) s).2.mem a = newval)) ∧
    (ceq t told (s.mem a) oldval = false →
      (__sync_bool_compare_and_swap t (pure a) (Operand.lit told oldval)
          (Operand.lit tnew newval) s).1 = 0 ∧
      (__sync_bool_compare_and_swap t (pure a) (Operand.lit told oldval)
          (Operand.lit tnew newval) s).2.mem a = s.mem a) ∧
    ((__sync_bool_compare_and_swap t (pure a) (Operand.lit told oldval)
        (Operand.lit tnew newval) s).1 = 0 ∨
      (__sync_bool_compare_and_swap t (pure a) (Operand.lit told oldval)
          (Operand.lit tnew newval) s).1 = 1) ∧
    (__sync_bool_compare_and_swap t (pure a) (Operand.lit told oldval)
        (Operand.lit tnew newval) s).2.trace
      = s.trace ++ Event.load a (s.mem a) ::
          (if ceq t told (s.mem a) oldval = true then [Event.store a (conv t newval)] else []) ∧
    (t.holds (s.mem a) → t.holds oldval →
      (ceq t t (s.mem a) oldval = true ↔ s.mem a = oldval)) := by
  refine ⟨?_, ?_, ?_, ?_, ceq_same_type t _ _⟩ <;>
    by_cases h : ceq t told (s.mem a) oldval = true <;>
    simp [__sync_bool_compare_and_swap, assign, load, store, write, Operand.lit, bind, StateT.bind,
        pure, StateT.pure, h]
  exact fun hv => conv_of_holds t newval hv

/-- Claim C2, amended, at `uint32_t x = 4294967295`, `oldval = -1`,
`newval = 7`: the comparison converts `-1` to 4294967295, so the result is 1 and
`x == 7`. -/
theorem bool_compare_and_swap_contract_witness :
    ceq (CType.uint 32) (CType.sint 32) ((initState 4294967295).mem 0) (-1) = true ∧
    (__sync_bool_compare_and_swap (CType.uint 32) (pure 0) (Operand.lit (CType.sint 32) (-1))
      (Operand.lit (CType.sint 32) 7) (initState 4294967295)).1 = 1 ∧
    (__sync_bool_compare_and_swap (CType.uint 32) (pure 0) (Operand.lit (CType.sint 32) (-1))
      (Operand.lit (CType.sint 32) 7) (initState 4294967295)).2.mem 0 = 7 :=
  ⟨by decide,
    ((bool_compare_and_swap_contract (CType.uint 32) (CType.sint 32) (CType.sint 32) 0 (-1) 7
      (initState 4294967295)).1 (by decide)).1,
    ((bool_compare_and_swap_contract (CType.uint 32) (CType.sint 32) (CType.sint 32) 0 (-1) 7
      (initState 4294967295)).1 (by decide)).2.1.trans (by decide)⟩

/-- Claim C3 as stated fails: with `uint8_t x = 5`,
`__sync_val_compare_and_swap(&x, 5, 261)` finds `x == 5` but leaves `x == 5`,
the value 261 converted to the pointee type, not 261. -/
theorem val_compare_and_swap_newval_fails :
    ¬ ((initState 5).mem 0 = 5 →
      (__sync_val_compare_and_swap (CType.uint 8) (pure 0) (Operand.lit (CType.sint 32) 5)
        (Operand.lit (CType.sint 32) 261) (initState 5)).2.mem 0 = 261) := by
  decide

/-- Claim C3, amended: for every pointee type `t`, every initial value `v` of
`*ptr` and all operands `oldval` and `newval` of any types,
`__sync_val_compare_and_swap(ptr, oldval, newval)` returns `v` whether or not
the swap occurs, stores `newval` converted to `t` (`newval` itself when that is
a value of `t`) into `*ptr` when `v == oldval`, and leaves `*ptr` equal to `v`
when `v != oldval`, `==` being the comparison of C (plain equality on two
values of the type `t`). -/
theorem val_compare_and_swap_contract (t told tnew : CType) (a : Addr) (oldval newval : Int)
    (s : State) :
    (__sync_val_compare_and_swap t (pure a) (Operand.lit told oldval) (Operand.lit tnew newval) s).1
        = s.mem a ∧
    (ceq t told (s.mem a) oldval = true →
      (__sync_val_compare_and_swap t (pure a) (Operand.lit told oldval)
          (Operand.lit tnew newval) s).2.mem a = conv t newval ∧
      (t.holds newval →
        (__sync_val_compare_and_swap t (pure a) (Operand.lit told oldval)
            (Operand.lit tnew newval) s).2.mem a = newval)) ∧
    (ceq t told (s.mem a) oldval = false →
      (__sync_val_compare_and_swap t (pure a) (Operand.lit told oldval)
          (Operand.lit tnew newval) s).2.mem a = s.mem a) ∧
    (t.holds (s.mem a) → t.holds oldval →
      (ceq t t (s.mem a) oldval = true ↔ s.mem a = oldval)) := by
  refine ⟨?_, ?_, ?_, ceq_same_type t _ _⟩ <;>
    by_cases h : ceq t told (s.mem a) oldval = true <;>
    simp [__sync_val_compare_and_swap, assign, load, store, write, Operand.lit, bind, StateT.bind,
        pure, StateT.pure, h]
  exact fun hv => conv_of_holds t newval hv

/-- Claim C3, amended, at `uint64_t x = 18446744073709551615`, `oldval = -1`,
`newval = 7`: the comparison converts `-1`, so the swap occurs; the result is
the initial value and `x == 7`. -/
theorem val_compare_and_swap_contract_witness :
    ceq (CType.uint 64) (CType.sint 32) ((initState 18446744073709551615).mem 0) (-1)
      = true ∧
    (__sync_val_compare_and_swap (CType.uint 64) (pure 0) (Operand.lit (CType.sint 32) (-1))
      (Operand.lit (CType.sint 32) 7) (initState 18446744073709551615)).1
      = 18446744073709551615 ∧
    (__sync_val_compare_and_swap (CType.uint 64) (pure 0) (Operand.lit (CType.sint 32) (-1))
      (Operand.lit (CType.sint 32) 7) (initState 18446744073709551615)).2.mem 0 = 7 :=
  ⟨by decide,
    (val_compare_and_swap_contract (CType.uint 64) (CType.sint 32) (CType.sint 32) 0 (-1) 7
      (initState 18446744073709551615)).1,
    ((val_compare_and_swap_contract (CType.uint 64) (CType.sint 32) (CType.sint 32) 0 (-1) 7
      (initState 18446744073709551615)).2.1 (by decide)).1.trans (by decide)⟩

/-- Claim C4 as stated fails on a `_Bool` pointee, whose width is 1: with
`b == 1`, `__sync_add_and_fetch(&b, 1)` returns 1 and leaves `b == 1`, where
`1 + 1` modulo `2 ^ 1` is 0.  On the signed `int x = 3`,
`__sync_sub_and_fetch(&x, 5)` returns `-2`, the value of the type congruent to
`3 - 5`, not the residue 4294967294. -/
theorem op_and_fetch_modulo_fails :
    ¬ ((__sync_add_and_fetch CType.bool (pure 0) (Operand.lit (CType.sint 32) 1)
          (initState 1)).2.mem 0
        = ((initState 1).mem 0 + 1) % 2 ^ CType.bool.width) ∧
    ¬ ((__sync_sub_and_fetch (CType.sint 32) (pure 0) (Operand.lit (CType.sint 32) 5)
          (initState 3)).1
        = ((initState 3).mem 0 - 5) % 2 ^ (CType.sint 32).width) := by
  decide

/-- Claim C4, amended: for every integer pointee type `t`, every initial value
and every operand `d` of any type `td`, each of `__sync_add_and_fetch`, `_sub_`,
`_or_`, `_and_`, `_xor_` returns the value after the update: the result equals
the final content of `*ptr`, which is the C value of `v op d` converted to `t`,
a value of `t`; when `t` is not `_Bool` that is the value of `t` congruent to
`v op d` modulo `2 ^ w`, `w` being the width of `t`. -/
theorem op_and_fetch_returns_new (t td : CType) (a : Addr) (d : Int) (s : State) :
    (((__sync_add_and_fetch t (pure a) (Operand.lit td d) s).1
        = (__sync_add_and_fetch t (pure a) (Operand.lit td d) s).2.mem a) ∧
      (__sync_add_and_fetch t (pure a) (Operand.lit td d) s).2.mem a
        = conv t (binop (common t td) (fun x y => x + y) (s.mem a) d) ∧
      (t ≠ CType.bool →
        (__sync_add_and_fetch t (pure a) (Operand.lit td d) s).2.mem a % 2 ^ t.width
          = (s.mem a + d) % 2 ^ t.width) ∧
      t.holds ((__sync_add_and_fetch t (pure a) (Operand.lit td d) s).2.mem a)) ∧
    (((__sync_sub_and_fetch t (pure a) (Operand.lit td d) s).1
        = (__sync_sub_and_fetch t (pure a) (Operand.lit td d) s).2.mem a) ∧
      (__sync_sub_and_fetch t (pure a) (Operand.lit td d) s).2.mem a
        = conv t (binop (common t td) (fun x y => x - y) (s.mem a) d) ∧
      (t ≠ CType.bool →
        (__sync_sub_and_fetch t (pure a) (Operand.lit td d) s).2.mem a % 2 ^ t.width
          = (s.mem a - d) % 2 ^ t.width) ∧
      t.holds ((__sync_sub_and_fetch t (pure a) (Operand.lit td d) s).2.mem a)) ∧
    (((__sync_or_and_fetch t (pure a) (Operand.lit td d) s).1
        = (__sync_or_and_fetch t (pure a) (Operand.lit td d) s).2.mem a) ∧
      (__sync_or_and_fetch t (pure a) (Operand.lit td d) s).2.mem a
        = conv t (binop (common t td) Int.lor (s.mem a) d) ∧
      (t ≠ CType.bool →
        (__sync_or_and_fetch t (pure a) (Operand.lit td d) s).2.mem a % 2 ^ t.width
          = Int.lor (s.mem a) d % 2 ^ t.width) ∧
      t.holds ((__sync_or_and_fetch t (pure a) (Operand.lit td d) s).2.mem a)) ∧
    (((__sync_and_and_fetch t (pure a) (Operand.lit td d) s).1
        = (__sync_and_and_fetch t (pure a) (Operand.lit td d) s).2.mem a) ∧
      (__sync_and_and_fetch t (pure a) (Operand.lit td d) s).2.mem a
        = conv t (binop (common t td) Int.land (s.mem a) d) ∧
      (t ≠ CType.bool →
        (__sync_and_and_fetch t (pure a) (Operand.lit td d) s).2.mem a % 2 ^ t.width
          = Int.land (s.mem a) d % 2 ^ t.width) ∧
      t.holds ((__sync_and_and_fetch t (pure a) (Operand.lit td d) s).2.mem a)) ∧
    (((__sync_xor_and_fetch t (pure a) (Operand.lit td d) s).1
        = (__sync_xor_and_fetch t (pure a) (Operand.lit td d) s).2.mem a) ∧
      (__sync_xor_and_fetch t (pure a) (Operand.lit td d) s).2.mem a
        = conv t (binop (common t td) Int.xor (s.mem a) d) ∧
      (t ≠ CType.bool →
        (__sync_xor_and_fetch t (pure a) (Operand.lit td d) s).2.mem a % 2 ^ t.width
          = Int.xor (s.mem a) d % 2 ^ t.width) ∧
      t.holds ((__sync_xor_and_fetch t (pure a) (Operand.lit td d) s).2.mem a)) := by
  have hadd : (__sync_add_and_fetch t (pure a) (Operand.lit td d) s).2.mem a
      = conv t (binop (common t td) (fun x y => x + y) (s.mem a) d) := by
    simp [__sync_add_and_fetch, assign, assignOp, load, store, write, Operand.lit, bind, StateT.bind,
        pure,
      StateT.pure]
  have hsub : (__sync_sub_and_fetch t (pure a) (Operand.lit td d) s).2.mem a
      = conv t (binop (common t td) (fun x y => x - y) (s.mem a) d) := by
    simp [__sync_sub_and_fetch, assign, assignOp, load, store, write, Operand.lit, bind, StateT.bind,
        pure,
      StateT.pure]
  have hor : (__sync_or_and_fetch t (pure a) (Operand.lit td d) s).2.mem a
      = conv t (binop (common t td) Int.lor (s.mem a) d) := by
    simp [__sync_or_and_fetch, assign, assignOp, load, store, write, Operand.lit, bind, StateT.bind,
        pure,
      StateT.pure]
  have hand : (__sync_and_and_fetch t (pure a) (Operand.lit td d) s).2.mem a
      = conv t (binop (common t td) Int.land (s.mem a) d) := by
    simp [__sync_and_and_fetch, assign, assignOp, load, store, write, Operand.lit, bind, StateT.bind,
        pure,
      StateT.pure]
  have hxor : (__sync_xor_and_fetch t (pure a) (Operand.lit td d) s).2.mem a
      = conv t (binop (common t td) Int.xor (s.mem a) d) := by
    simp [__sync_xor_and_fetch, assign, assignOp, load, store, write, Operand.lit, bind, StateT.bind,
        pure,
      StateT.pure]
  refine ⟨?_, ?_, ?_, ?_, ?_⟩
  · exact ⟨by simp [__sync_add_and_fetch, assign, assignOp, load, store, write, Operand.lit, bind,
      StateT.bind, pure,
      StateT.pure],
      hadd,
      fun ht => by
        rw [hadd]
        exact store_binop_emod _ (fun w x x' y y' hx hy => add_emod w x x' y y' hx hy) t td _ _ ht,
      by rw [hadd]; exact conv_holds _ _⟩
  · exact ⟨by simp [__sync_sub_and_fetch, assign, assignOp, load, store, write, Operand.lit, bind,
      StateT.bind, pure,
      StateT.pure],
      hsub,
      fun ht => by
        rw [hsub]
        exact store_binop_emod _ (fun w x x' y y' hx hy => sub_emod w x x' y y' hx hy) t td _ _ ht,
      by rw [hsub]; exact conv_holds _ _⟩
  · exact ⟨by simp [__sync_or_and_fetch, assign, assignOp, load, store, write, Operand.lit, bind,
      StateT.bind, pure,
      StateT.pure],
      hor,
      fun ht => by
        rw [hor]
        exact store_binop_emod _ (fun w x x' y y' hx hy => lor_emod w x x' y y' hx hy) t td _ _ ht,
      by rw [hor]; exact conv_holds _ _⟩
  · exact ⟨by simp [__sync_and_and_fetch, assign, assignOp, load, store, write, Operand.lit, bind,
      StateT.bind, pure,
      StateT.pure],
      hand,
      fun ht => by
        rw [hand]
        exact store_binop_emod _ (fun w x x' y y' hx hy => land_emod w x x' y y' hx hy) t td _ _ ht,
      by rw [hand]; exact conv_holds _ _⟩
  · exact ⟨by simp [__sync_xor_and_fetch, assign, assignOp, load, store, write, Operand.lit, bind,
      StateT.bind, pure,
      StateT.pure],
      hxor,
      fun ht => by
        rw [hxor]
        exact store_binop_emod _ (fun w x x' y y' hx hy => xor_emod w x x' y y' hx hy) t td _ _ ht,
      by rw [hxor]; exact conv_holds _ _⟩

/-- Claim C4, amended, at `int x = 3`: `__sync_sub_and_fetch(&x, 5)` returns `-2`
and leaves `x == -2`. -/
theorem op_and_fetch_returns_new_witness :
    (__sync_sub_and_fetch (CType.sint 32) (pure 0) (Operand.lit (CType.sint 32) 5)
      (initState 3)).1 = -2 ∧
    (__sync_sub_and_fetch (CType.sint 32) (pure 0) (Operand.lit (CType.sint 32) 5)
      (initState 3)).2.mem 0 = -2 :=
  ⟨((op_and_fetch_returns_new (CType.sint 32) (CType.sint 32) 0 5 (initState 3)).2.1.1).trans
      (by decide),
    ((op_and_fetch_returns_new (CType.sint 32) (CType.sint 32) 0 5
      (initState 3)).2.1.2.1).trans (by decide)⟩

/-- Claim C5 as stated fails on a `_Bool` pointee, whose width is 1: with
`b == 1`, `__sync_fetch_and_nand(&b, 1)` leaves `b == 1`, where the complement
of `1 & 1` at width 1 is 0.  On the signed `int x = 12`,
`__sync_fetch_and_nand(&x, 10)` leaves `-9`, not the residue 4294967287. -/
theorem fetch_and_nand_width_fails :
    ¬ ((__sync_fetch_and_nand CType.bool (pure 0) (Operand.lit (CType.sint 32) 1)
          (initState 1)).2.mem 0
        = (~~~ (Int.land ((initState 1).mem 0) 1)) % 2 ^ CType.bool.width) ∧
    ¬ ((__sync_fetch_and_nand (CType.sint 32) (pure 0) (Operand.lit (CType.sint 32) 10)
          (initState 12)).2.mem 0
        = (~~~ (Int.land ((initState 12).mem 0) 10)) % 2 ^ (CType.sint 32).width) := by
  decide

/-- Claim C5, amended: for every integer pointee type `t`, every initial value
`v` and every operand `d` of any type `td`, `__sync_fetch_and_nand` returns `v`
and leaves the variable equal to the C value of `~(v & d)` converted to `t`, a
value of `t`; when `t` is not `_Bool` that is the value of `t` congruent modulo
`2 ^ w` to the complement of `v & d`, that is, to `2 ^ w - 1 - (v & d)`.  On
`uint8_t v = 12`, `d = 10` it is 247, where `v & ~d` is 4. -/
theorem fetch_and_nand_contract (t td : CType) (a : Addr) (d : Int) (s : State) :
    (__sync_fetch_and_nand t (pure a) (Operand.lit td d) s).1 = s.mem a ∧
    (__sync_fetch_and_nand t (pure a) (Operand.lit td d) s).2.mem a
      = conv t (cnot (common t td) (binop (common t td) Int.land (s.mem a) d)) ∧
    (t ≠ CType.bool →
      (__sync_fetch_and_nand t (pure a) (Operand.lit td d) s).2.mem a % 2 ^ t.width
        = (~~~ (Int.land (s.mem a) d)) % 2 ^ t.width ∧
      (__sync_fetch_and_nand t (pure a) (Operand.lit td d) s).2.mem a % 2 ^ t.width
        = 2 ^ t.width - 1 - Int.land (s.mem a) d % 2 ^ t.width) ∧
    t.holds ((__sync_fetch_and_nand t (pure a) (Operand.lit td d) s).2.mem a) ∧
    ((__sync_fetch_and_nand (CType.uint 8) (pure 0) (Operand.lit (CType.sint 32) 10)
        (initState 12)).2.mem 0 = 247 ∧
      Int.land 12 (~~~ 10) % 2 ^ 8 = 4) := by
  have hfin : (__sync_fetch_and_nand t (pure a) (Operand.lit td d) s).2.mem a
      = conv t (cnot (common t td) (binop (common t td) Int.land (s.mem a) d)) := by
    simp [__sync_fetch_and_nand, assign, load, store, write, Operand.lit, bind, StateT.bind, pure,
        StateT.pure]
  refine ⟨?_, hfin, ?_, ?_, ?_, ?_⟩
  · simp [__sync_fetch_and_nand, assign, load, store, write, Operand.lit, bind, StateT.bind, pure,
      StateT.pure]
  · intro ht
    have h1 := store_nand_emod t td (s.mem a) d ht
    rw [hfin]
    exact ⟨h1, by rw [h1, not_emod_two_pow]⟩
  · rw [hfin]; exact conv_holds _ _
  · decide
  · have h : (~~~ (10 : Int)) = Int.negSucc 10 := rfl
    have h4 : Nat.ldiff 12 10 = 4 := by simp [Nat.ldiff, Nat.bitwise]
    rw [h]
    show ((Nat.ldiff 12 10 : Nat) : Int) % 2 ^ 8 = 4
    rw [h4]
    decide

/-- Claim C5, amended, at `int x = 12`: `__sync_fetch_and_nand(&x, 10)` returns
12 and leaves `x == -9`. -/
theorem fetch_and_nand_contract_witness :
    (__sync_fetch_and_nand (CType.sint 32) (pure 0) (Operand.lit (CType.sint 32) 10)
      (initState 12)).1 = 12 ∧
    (__sync_fetch_and_nand (CType.sint 32) (pure 0) (Operand.lit (CType.sint 32) 10)
      (initState 12)).2.mem 0 = -9 :=
  ⟨(fetch_and_nand_contract (CType.sint 32) (CType.sint 32) 0 10 (initState 12)).1,
    ((fetch_and_nand_contract (CType.sint 32) (CType.sint 32) 0 10
      (initState 12)).2.1).trans (by decide)⟩

/-- Claim C6 as stated fails on a `_Bool` pointee, whose width is 1: with
`b == 1`, `__sync_nand_and_fetch(&b, 1)` returns 1, where the complement of
`1 & 1` at width 1 is 0.  On the signed `int x = 12`,
`__sync_nand_and_fetch(&x, 10)` returns `-9`, not the residue 4294967287. -/
theorem nand_and_fetch_width_fails :
    ¬ ((__sync_nand_and_fetch CType.bool (pure 0) (Operand.lit (CType.sint 32) 1)
          (initState 1)).1
        = (~~~ (Int.land ((initState 1).mem 0) 1)) % 2 ^ CType.bool.width) ∧
    ¬ ((__sync_nand_and_fetch (CType.sint 32) (pure 0) (Operand.lit (CType.sint 32) 10)
          (initState 12)).1
        = (~~~ (Int.land ((initState 12).mem 0) 10)) % 2 ^ (CType.sint 32).width) := by
  decide

/-- Claim C6, amended: for every integer pointee type `t`, every initial value
`v` and every operand `d` of any type `td`, `__sync_nand_and_fetch` returns the
C value of `~(v & d)` converted to `t` and leaves the variable equal to the
returned value, which is a value of `t` (not the unconverted or promoted one);
when `t` is not `_Bool` it is the value of `t` congruent modulo `2 ^ w` to the
complement of `v & d`, that is, to `2 ^ w - 1 - (v & d)`. -/
theorem nand_and_fetch_contract (t td : CType) (a : Addr) (d : Int) (s : State) :
    (__sync_nand_and_fetch t (pure a) (Operand.lit td d) s).1
      = conv t (cnot (common t td) (binop (common t td) Int.land (s.mem a) d)) ∧
    (__sync_nand_and_fetch t (pure a) (Operand.lit td d) s).2.mem a
      = (__sync_nand_and_fetch t (pure a) (Operand.lit td d) s).1 ∧
    (t ≠ CType.bool →
      (__sync_nand_and_fetch t (pure a) (Operand.lit td d) s).1 % 2 ^ t.width
        = (~~~ (Int.land (s.mem a) d)) % 2 ^ t.width ∧
      (__sync_nand_and_fetch t (pure a) (Operand.lit td d) s).1 % 2 ^ t.width
        = 2 ^ t.width - 1 - Int.land (s.mem a) d % 2 ^ t.width) ∧
    t.holds ((__sync_nand_and_fetch t (pure a) (Operand.lit td d) s).1) := by
  have hret : (__sync_nand_and_fetch t (pure a) (Operand.lit td d) s).1
      = conv t (cnot (common t td) (binop (common t td) Int.land (s.mem a) d)) := by
    simp [__sync_nand_and_fetch, assign, load, store, write, Operand.lit, bind, StateT.bind, pure,
        StateT.pure]
  refine ⟨hret, ?_, ?_, ?_⟩
  · simp [__sync_nand_and_fetch, assign, load, store, write, Operand.lit, bind, StateT.bind, pure,
      StateT.pure]
  · intro ht
    have h1 := store_nand_emod t td (s.mem a) d ht
    rw [hret]
    exact ⟨h1, by rw [h1, not_emod_two_pow]⟩
  · rw [hret]; exact conv_holds _ _

/-- Claim C6, amended, at `int x = 12`: `__sync_nand_and_fetch(&x, 10)` returns
`-9` and leaves `x == -9`. -/
theorem nand_and_fetch_contract_witness :
    (__sync_nand_and_fetch (CType.sint 32) (pure 0) (Operand.lit (CType.sint 32) 10)
      (initState 12)).1 = -9 ∧
    (__sync_nand_and_fetch (CType.sint 32) (pure 0) (Operand.lit (CType.sint 32) 10)
      (initState 12)).2.mem 0 = -9 :=
  ⟨((nand_and_fetch_contract (CType.sint 32) (CType.sint 32) 0 10 (initState 12)).1).trans
      (by decide),
    ((nand_and_fetch_contract (CType.sint 32) (CType.sint 32) 0 10 (initState 12)).2.1).trans
      (((nand_and_fetch_contract (CType.sint 32) (CType.sint 32) 0 10
        (initState 12)).1).trans (by decide))⟩

/-- Claim C8 as stated fails: with `uint8_t x = 5`,
`__sync_lock_test_and_set(&x, 263)` leaves `x == 7`, the value 263 converted to
the pointee type, not 263. -/
theorem lock_test_and_set_value_fails :
    ¬ ((__sync_lock_test_and_set (CType.uint 8) (pure 0) (Operand.lit (CType.sint 32) 263)
        (initState 5)).2.mem 0 = 263) := by
  decide

/-- Claim C8, amended: for every pointee type `t`, every initial value `v` of
`*ptr` and every operand `value` of any type,
`__sync_lock_test_and_set(ptr, value)` returns `v` and leaves `*ptr` equal to
`value` converted to `t` (to `value` itself when that is a value of `t`),
whatever `v` is: it reads `*ptr` once and then writes, under no condition. -/
theorem lock_test_and_set_contract (t tv : CType) (a : Addr) (value : Int) (s : State) :
    (__sync_lock_test_and_set t (pure a) (Operand.lit tv value) s).1 = s.mem a ∧
    (__sync_lock_test_and_set t (pure a) (Operand.lit tv value) s).2.mem a = conv t value ∧
    (__sync_lock_test_and_set t (pure a) (Operand.lit tv value) s).2.trace
      = s.trace ++ [Event.load a (s.mem a), Event.store a (conv t value)] ∧
    (t.holds value → (__sync_lock_test_and_set t (pure a) (Operand.lit tv value) s).2.mem a
        = value) := by
  have hfin : (__sync_lock_test_and_set t (pure a) (Operand.lit tv value) s).2.mem a
      = conv t value := by
    simp [__sync_lock_test_and_set, assign, load, store, write, Operand.lit, bind, StateT.bind, pure,
        StateT.pure]
  refine ⟨?_, hfin, ?_, fun hv => ?_⟩
  · simp [__sync_lock_test_and_set, assign, load, store, write, Operand.lit, bind, StateT.bind, pure,
      StateT.pure]
  · simp [__sync_lock_test_and_set, assign, load, store, write, Operand.lit, bind, StateT.bind, pure,
      StateT.pure]
  · rw [hfin, conv_of_holds t value hv]

/-- Claim C8, amended, at `int x = 1` and `value = -1`: the result is 1 and
`x == -1`. -/
theorem lock_test_and_set_contract_witness :
    (CType.sint 32).holds (-1) ∧
    (__sync_lock_test_and_set (CType.sint 32) (pure 0) (Operand.lit (CType.sint 32) (-1))
      (initState 1)).1 = 1 ∧
    (__sync_lock_test_and_set (CType.sint 32) (pure 0) (Operand.lit (CType.sint 32) (-1))
      (initState 1)).2.mem 0 = -1 :=
  ⟨by decide,
    (lock_test_and_set_contract (CType.sint 32) (CType.sint 32) 0 (-1) (initState 1)).1,
    (lock_test_and_set_contract (CType.sint 32) (CType.sint 32) 0 (-1) (initState 1)).2.2.2
      (by decide)⟩

/-- The value 0 converts to 0 in every type. -/
theorem conv_zero (t : CType) : conv t 0 = 0 := by
  cases t <;> simp [conv]

/-- Claim C9: `__sync_lock_release(ptr)` leaves `*ptr == 0` whatever `*ptr` held
and has no value; after any `__sync_lock_test_and_set(ptr, value)` it leaves
`*ptr == 0` whatever `value` was stored. -/
theorem lock_release_zeroes (t tv : CType) (a : Addr) (value : Int) (s : State) :
    (__sync_lock_release t (pure a) s).2.mem a = 0 ∧
    (__sync_lock_release t (pure a) s).1 = () ∧
    PtrOp.lock_release.invoke t (pure a) (Operand.lit tv value) (Operand.lit tv value) s
      = (none, (__sync_lock_release t (pure a) s).2) ∧
    (__sync_lock_release t (pure a)
      (__sync_lock_test_and_set t (pure a) (Operand.lit tv value) s).2).2.mem a = 0 := by
  simp [PtrOp.invoke, __sync_lock_release, __sync_lock_test_and_set,
      assign, load, store, write, Operand.lit, bind, StateT.bind, pure, StateT.pure,
    Functor.map, StateT.map, conv_zero]

/-- Claim C10: on the same initial state `__sync_bool_compare_and_swap` returns 1
exactly when the value returned by `__sync_val_compare_and_swap` equals
`oldval` (by the comparison `==` of C, which is plain equality when the initial
value and `oldval` are values of the pointee type), and the two leave the same
memory; the value variant writes `*ptr` exactly when its result equals
`oldval`. -/
theorem bool_and_val_compare_and_swap_agree (t told tnew : CType) (a : Addr)
    (oldval newval : Int) (s : State) :
    ((__sync_bool_compare_and_swap t (pure a) (Operand.lit told oldval)
        (Operand.lit tnew newval) s).1 = 1 ↔
      ceq t told (__sync_val_compare_and_swap t (pure a) (Operand.lit told oldval)
          (Operand.lit tnew newval) s).1 oldval = true) ∧
    (__sync_bool_compare_and_swap t (pure a) (Operand.lit told oldval)
        (Operand.lit tnew newval) s).2.mem
      = (__sync_val_compare_and_swap t (pure a) (Operand.lit told oldval)
          (Operand.lit tnew newval) s).2.mem ∧
    (__sync_val_compare_and_swap t (pure a) (Operand.lit told oldval)
        (Operand.lit tnew newval) s).2.trace
      = s.trace ++ Event.load a (s.mem a) :: Event.load a (s.mem a) ::
          (if ceq t told (__sync_val_compare_and_swap t (pure a) (Operand.lit told oldval)
              (Operand.lit tnew newval) s).1 oldval = true
            then [Event.store a (conv t newval)] else []) ∧
    (t.holds (s.mem a) → t.holds oldval →
      ((__sync_bool_compare_and_swap t (pure a) (Operand.lit t oldval)
          (Operand.lit tnew newval) s).1 = 1 ↔
        (__sync_val_compare_and_swap t (pure a) (Operand.lit t oldval)
          (Operand.lit tnew newval) s).1 = oldval)) := by
  refine ⟨?_, ?_, ?_, ?_⟩
  · by_cases h : ceq t told (s.mem a) oldval = true <;>
      simp [__sync_bool_compare_and_swap, __sync_val_compare_and_swap, assign, load, store,
        write, Operand.lit, bind, StateT.bind, pure, StateT.pure, h]
  · by_cases h : ceq t told (s.mem a) oldval = true <;>
      simp [__sync_bool_compare_and_swap, __sync_val_compare_and_swap, assign, load, store,
        write, Operand.lit, bind, StateT.bind, pure, StateT.pure, h]
  · by_cases h : ceq t told (s.mem a) oldval = true <;>
      simp [__sync_bool_compare_and_swap, __sync_val_compare_and_swap, assign, load, store,
        write, Operand.lit, bind, StateT.bind, pure, StateT.pure, h]
  · intro hv ho
    have hiff := ceq_same_type t (s.mem a) oldval hv ho
    by_cases h : ceq t t (s.mem a) oldval = true
    · have heq := hiff.mp h
      have h2 : ceq t t oldval oldval = true := by rw [heq] at h; exact h
      simp [__sync_bool_compare_and_swap, __sync_val_compare_and_swap, assign, load, store,
        write, Operand.lit, bind, StateT.bind, pure, StateT.pure, h2, heq]
    · have hne : ¬ s.mem a = oldval := fun he => h (hiff.mpr he)
      simp [__sync_bool_compare_and_swap, __sync_val_compare_and_swap, assign, load, store,
        write, Operand.lit, bind, StateT.bind, pure, StateT.pure, h, hne]

/-- Claim C11 as stated fails: with `uint8_t x = 5`, `oldval = 5` and
`newval = 261`, which differ, the first `__sync_bool_compare_and_swap` stores
261 converted to the pointee type, which is 5, and the identical second call
returns 1 again. -/
theorem repeated_compare_and_swap_fails :
    ¬ ((5 : Int) ≠ 261 → (initState 5).mem 0 = 5 →
      (__sync_bool_compare_and_swap (CType.uint 8) (pure 0) (Operand.lit (CType.sint 32) 5)
        (Operand.lit (CType.sint 32) 261)
        (__sync_bool_compare_and_swap (CType.uint 8) (pure 0) (Operand.lit (CType.sint 32) 5)
        (Operand.lit (CType.sint 32) 261) (initState 5)).2).1 = 0) := by
  decide

/-- Claim C11, amended: with a variable initially equal to `oldval` and a
`newval` that, converted to the type of the variable, compares unequal to
`oldval`, the first `__sync_bool_compare_and_swap(&x, oldval, newval)` returns 1
and leaves `x` equal to `newval` converted to the type of `x` (to `newval`
itself when that is a value of the type), and the same call repeated returns 0
and leaves `x` as it was. -/
theorem bool_compare_and_swap_repeated (t told tnew : CType) (a : Addr)
    (oldval newval : Int) (s : State)
    (hinit : ceq t told (s.mem a) oldval = true)
    (hne : ceq t told (conv t newval) oldval = false) :
    (__sync_bool_compare_and_swap t (pure a) (Operand.lit told oldval)
        (Operand.lit tnew newval) s).1 = 1 ∧
    (__sync_bool_compare_and_swap t (pure a) (Operand.lit told oldval)
        (Operand.lit tnew newval) s).2.mem a = conv t newval ∧
    (t.holds newval →
      (__sync_bool_compare_and_swap t (pure a) (Operand.lit told oldval)
          (Operand.lit tnew newval) s).2.mem a = newval) ∧
    (__sync_bool_compare_and_swap t (pure a) (Operand.lit told oldval) (Operand.lit tnew newval)
      (__sync_bool_compare_and_swap t (pure a) (Operand.lit told oldval)
          (Operand.lit tnew newval) s).2).1 = 0 ∧
    (__sync_bool_compare_and_swap t (pure a) (Operand.lit told oldval) (Operand.lit tnew newval)
      (__sync_bool_compare_and_swap t (pure a) (Operand.lit told oldval)
          (Operand.lit tnew newval) s).2).2.mem a
      = conv t newval := by
  have hfin : (__sync_bool_compare_and_swap t (pure a) (Operand.lit told oldval)
      (Operand.lit tnew newval) s).2.mem a = conv t newval := by
    simp [__sync_bool_compare_and_swap, assign, load, store, write, Operand.lit, bind, StateT.bind,
        pure, StateT.pure, hinit]
  refine ⟨?_, hfin, fun hv => by rw [hfin, conv_of_holds t newval hv], ?_, ?_⟩ <;>
    simp [__sync_bool_compare_and_swap, assign, load, store, write, Operand.lit, bind, StateT.bind,
        pure, StateT.pure, hinit, hne]

/-- Claim C11, amended, on the example of the specification: `int x = 5`,
`oldval = 5`, `newval = 9` gives 1 and `x == 9`, then 0 and `x == 9`. -/
theorem bool_compare_and_swap_repeated_witness :
    (ceq (CType.sint 32) (CType.sint 32) ((initState 5).mem 0) 5 = true ∧
      ceq (CType.sint 32) (CType.sint 32) (conv (CType.sint 32) 9) 5 = false) ∧
    (__sync_bool_compare_and_swap (CType.sint 32) (pure 0) (Operand.lit (CType.sint 32) 5)
      (Operand.lit (CType.sint 32) 9) (initState 5)).1 = 1 ∧
    (__sync_bool_compare_and_swap (CType.sint 32) (pure 0) (Operand.lit (CType.sint 32) 5)
      (Operand.lit (CType.sint 32) 9) (initState 5)).2.mem 0 = 9 ∧
    (__sync_bool_compare_and_swap (CType.sint 32) (pure 0) (Operand.lit (CType.sint 32) 5)
      (Operand.lit (CType.sint 32) 9)
      (__sync_bool_compare_and_swap (CType.sint 32) (pure 0) (Operand.lit (CType.sint 32) 5)
      (Operand.lit (CType.sint 32) 9) (initState 5)).2).1 = 0 ∧
    (__sync_bool_compare_and_swap (CType.sint 32) (pure 0) (Operand.lit (CType.sint 32) 5)
      (Operand.lit (CType.sint 32) 9)
      (__sync_bool_compare_and_swap (CType.sint 32) (pure 0) (Operand.lit (CType.sint 32) 5)
      (Operand.lit (CType.sint 32) 9) (initState 5)).2).2.mem 0 = 9 :=
  ⟨by decide,
    (bool_compare_and_swap_repeated (CType.sint 32) (CType.sint 32) (CType.sint 32) 0 5 9
      (initState 5) (by decide) (by decide)).1,
    ((bool_compare_and_swap_repeated (CType.sint 32) (CType.sint 32) (CType.sint 32) 0 5 9
      (initState 5) (by decide) (by decide)).2.1).trans (by decide),
    (bool_compare_and_swap_repeated (CType.sint 32) (CType.sint 32) (CType.sint 32) 0 5 9
      (initState 5) (by decide) (by decide)).2.2.2.1,
    ((bool_compare_and_swap_repeated (CType.sint 32) (CType.sint 32) (CType.sint 32) 0 5 9
      (initState 5) (by decide) (by decide)).2.2.2.2).trans (by decide)⟩

/-- Claim C12 as stated fails in both directions: with `int x = 9`, `oldval = 5`
and `newval = 9` the content of `*ptr` after `__sync_val_compare_and_swap` is
`newval` although the initial value differs from `oldval`; and with
`uint8_t x = 5`, `oldval = 5` and `newval = 261` the initial value equals
`oldval` but the content afterwards is 5, not `newval`. -/
theorem val_compare_and_swap_content_iff_fails :
    ¬ ((__sync_val_compare_and_swap (CType.sint 32) (pure 0) (Operand.lit (CType.sint 32) 5)
          (Operand.lit (CType.sint 32) 9) (initState 9)).2.mem 0 = 9 ↔
        (initState 9).mem 0 = 5) ∧
    ¬ ((__sync_val_compare_and_swap (CType.uint 8) (pure 0) (Operand.lit (CType.sint 32) 5)
          (Operand.lit (CType.sint 32) 261) (initState 5)).2.mem 0 = 261 ↔
        (initState 5).mem 0 = 5) := by
  decide

/-- Claim C12, amended: for every pointee type `t`, `__sync_val_compare_and_swap`
returns the initial value `v`; afterwards `*ptr` holds `newval` converted to
`t` exactly when `v == oldval` or `v` already equalled that converted value;
and `*ptr` is written exactly when `v == oldval`, `==` being the comparison of
C. -/
theorem val_compare_and_swap_final_content (t told tnew : CType) (a : Addr)
    (oldval newval : Int) (s : State) :
    (__sync_val_compare_and_swap t (pure a) (Operand.lit told oldval) (Operand.lit tnew newval) s).1
        = s.mem a ∧
    ((__sync_val_compare_and_swap t (pure a) (Operand.lit told oldval)
        (Operand.lit tnew newval) s).2.mem a = conv t newval ↔
      (ceq t told (s.mem a) oldval = true ∨ s.mem a = conv t newval)) ∧
    ((accesses (__sync_val_compare_and_swap t (pure a) (Operand.lit told oldval)
        (Operand.lit tnew newval)) s).any (Event.isStoreOf a) = true ↔
      ceq t told (s.mem a) oldval = true) := by
  by_cases h : ceq t told (s.mem a) oldval = true <;>
    simp [__sync_val_compare_and_swap, accesses, Event.isStoreOf, Event.isLoadOf,
      assign, load, store, write, Operand.lit, bind, StateT.bind, pure, StateT.pure, h]

/-- Claim C13 fails on lines 42, 44, 48 and 50: their parameter lists have no
`...`, so an invocation of `__sync_bool_compare_and_swap`,
`__sync_val_compare_and_swap`, `__sync_lock_test_and_set` or
`__sync_lock_release` with an argument after the named ones is rejected;
the definitions of lines 28 to 40 and 46, which end in `...`, accept such
arguments and drop them. -/
theorem trailing_arguments_only_with_ellipsis (t : CType) (ptr : M Addr)
    (x y e : Operand) (extras : List Operand) :
    PtrOp.bool_compare_and_swap.call t ptr (x :: y :: e :: extras) = none ∧
    PtrOp.val_compare_and_swap.call t ptr (x :: y :: e :: extras) = none ∧
    PtrOp.lock_test_and_set.call t ptr (x :: e :: extras) = none ∧
    PtrOp.lock_release.call t ptr (e :: extras) = none ∧
    (∀ op : PtrOp, op.params.variadic = true →
      op.call t ptr (x :: e :: extras)
        = some (op.invoke t ptr x (Operand.lit (CType.sint intBits) 0)) ∧
      op.call t ptr [x] = some (op.invoke t ptr x (Operand.lit (CType.sint intBits) 0))) ∧
    synchronizeCall (e :: extras) = some (pure ()) ∧
    synchronizeCall [] = some (pure ()) := by
  refine ⟨?_, ?_, ?_, ?_, ?_, ?_, ?_⟩
  · simp [PtrOp.call, PtrOp.params, Params.accepts]
  · simp [PtrOp.call, PtrOp.params, Params.accepts]
  · simp [PtrOp.call, PtrOp.params, Params.accepts]
  · simp [PtrOp.call, PtrOp.params, Params.accepts]
  · intro op hop
    cases op <;> simp [PtrOp.params] at hop <;>
      simp [PtrOp.call, PtrOp.params, Params.accepts, PtrOp.invoke]
  · simp [synchronizeCall, synchronizeParams, Params.accepts, __sync_synchronize]
  · simp [synchronizeCall, synchronizeParams, Params.accepts, __sync_synchronize]

/-- Claim C14: `__sync_synchronize`, with any argument list, the empty one
included, is accepted and does nothing: the state, with every memory cell and
the trace of accesses, is unchanged, no argument is evaluated (a counting
argument leaves its counter as it was), and the result carries no value. -/
theorem synchronize_is_noop (args : List Operand) (s : State) (c : Addr) (ty : CType)
    (v : Int) :
    synchronizeCall args = some (__sync_synchronize args) ∧
    __sync_synchronize args s = ((), s) ∧
    (__sync_synchronize args s).2.mem = s.mem ∧
    accesses (__sync_synchronize args) s = [] ∧
    (__sync_synchronize (countingVal c ty v :: args) s).2.mem c = s.mem c := by
  simp [synchronizeCall, synchronizeParams, Params.accepts, __sync_synchronize, accesses,
    pure, StateT.pure]

/-- Expansion stops on a token list without defined identifiers. -/
theorem expand_of_not_defined (fuel : Nat) (ts : List Tok)
    (h : ts.any isDefined = false) : expand fuel ts = ts := by
  cases fuel <;> simp [expand, h]

/-- Claim C15: `__CENTRINEL_MANAGED_REGION` expands to `__region(1)`, with the
single argument 1, and `__CENTRINEL_MANAGED_ATTR` expands to
`__attribute__((__region(1)))`, with nothing else; both expansions are final. -/
theorem managed_region_expansion (fuel : Nat) :
    objectDefs.lookup "__CENTRINEL_MANAGED_REGION"
      = some [.ident "__region", .lparen, .num 1, .rparen] ∧
    expand (fuel + 1) [.ident "__CENTRINEL_MANAGED_REGION"]
      = [.ident "__region", .lparen, .num 1, .rparen] ∧
    expand (fuel + 2) [.ident "__CENTRINEL_MANAGED_ATTR"]
      = [.ident "__attribute__", .lparen, .lparen,
         .ident "__region", .lparen, .num 1, .rparen, .rparen, .rparen] ∧
    (expand (fuel + 2) [.ident "__CENTRINEL_MANAGED_ATTR"]).any isDefined = false := by
  have h1 : expand (fuel + 1) [.ident "__CENTRINEL_MANAGED_REGION"]
      = [.ident "__region", .lparen, .num 1, .rparen] := by
    rw [expand]
    simp only [show ([Tok.ident "__CENTRINEL_MANAGED_REGION"].any isDefined) = true by decide,
      if_true]
    exact expand_of_not_defined fuel _ (by decide)
  have h2 : expand (fuel + 2) [.ident "__CENTRINEL_MANAGED_ATTR"]
      = [.ident "__attribute__", .lparen, .lparen,
         .ident "__region", .lparen, .num 1, .rparen, .rparen, .rparen] := by
    rw [expand]
    simp only [show ([Tok.ident "__CENTRINEL_MANAGED_ATTR"].any isDefined) = true by decide,
      if_true]
    rw [expand]
    simp only [show (([Tok.ident "__CENTRINEL_MANAGED_ATTR"].flatMap replaceTok).any
      isDefined) = true by decide, if_true]
    exact expand_of_not_defined fuel _ (by decide)
  refine ⟨by decide, h1, h2, ?_⟩
  rw [h2]
  decide

/-- Claim C16 as stated fails: one `__sync_val_compare_and_swap` reads `*ptr`
twice before its store, and one `__sync_nand_and_fetch` reads `*ptr` once before
and once after its store. -/
theorem single_load_fails :
    accesses (__sync_val_compare_and_swap (CType.sint 32) (pure 0) (Operand.lit (CType.sint 32) 5)
        (Operand.lit (CType.sint 32) 9)) (initState 5)
      = [Event.load 0 5, Event.load 0 5, Event.store 0 9] ∧
    loadsOnceBeforeStores 0
      (accesses (__sync_val_compare_and_swap (CType.sint 32) (pure 0) (Operand.lit (CType.sint 32) 5)
        (Operand.lit (CType.sint 32) 9)) (initState 5))
      = false ∧
    accesses (__sync_nand_and_fetch (CType.uint 8) (pure 0) (Operand.lit (CType.sint 32) 10)) (initState 12)
      = [Event.load 0 12, Event.store 0 247, Event.load 0 247] ∧
    loadsOnceBeforeStores 0
      (accesses (__sync_nand_and_fetch (CType.uint 8) (pure 0) (Operand.lit (CType.sint 32) 10)) (initState 12))
      = false := by
  decide

/-- Claim C16, amended: in the accesses of one invocation of a fetch-and-op,
op-and-fetch, compare-and-swap or lock-test-and-set rewrite, with value
operands free of side effects, the first access is a read of `*ptr`, so a read
precedes every write.  `*ptr` is read exactly once in `__sync_fetch_and_nand`
and `__sync_lock_test_and_set`, where the value read is the result, and in
the five compound-assignment op-and-fetch rewrites and
`__sync_bool_compare_and_swap`; it is read exactly twice in
`__sync_fetch_and_add`, `_sub`, `_or`, `_and`, `_xor`,
`__sync_val_compare_and_swap` and `__sync_nand_and_fetch`. -/
theorem loads_of_pointee (op : PtrOp) (t tx ty : CType) (a : Addr) (x y : Int) (s : State)
    (hop : op ≠ PtrOp.lock_release) :
    (accesses (op.invoke t (pure a) (Operand.lit tx x) (Operand.lit ty y)) s).head?
      = some (Event.load a (s.mem a)) ∧
    (op ∈ [PtrOp.fetch_and_nand, PtrOp.lock_test_and_set] →
      (accesses (op.invoke t (pure a) (Operand.lit tx x) (Operand.lit ty y)) s).countP
          (Event.isLoadOf a) = 1 ∧
      (op.invoke t (pure a) (Operand.lit tx x) (Operand.lit ty y) s).1 = some (s.mem a)) ∧
    (op ∈ [PtrOp.add_and_fetch, PtrOp.sub_and_fetch, PtrOp.or_and_fetch,
        PtrOp.and_and_fetch, PtrOp.xor_and_fetch, PtrOp.bool_compare_and_swap] →
      (accesses (op.invoke t (pure a) (Operand.lit tx x) (Operand.lit ty y)) s).countP
          (Event.isLoadOf a) = 1) ∧
    (op ∈ [PtrOp.fetch_and_add, PtrOp.fetch_and_sub, PtrOp.fetch_and_or,
        PtrOp.fetch_and_and, PtrOp.fetch_and_xor, PtrOp.val_compare_and_swap,
        PtrOp.nand_and_fetch] →
      (accesses (op.invoke t (pure a) (Operand.lit tx x) (Operand.lit ty y)) s).countP
          (Event.isLoadOf a) = 2) := by
  by_cases hx : ceq t tx (s.mem a) x = true <;> cases op <;>
    simp [accesses, Event.isLoadOf, Event.isStoreOf, List.countP_cons, PtrOp.invoke, __sync_fetch_and_add, __sync_fetch_and_sub,
      __sync_fetch_and_or, __sync_fetch_and_and, __sync_fetch_and_xor,
      __sync_fetch_and_nand, __sync_add_and_fetch, __sync_sub_and_fetch,
      __sync_or_and_fetch, __sync_and_and_fetch, __sync_xor_and_fetch,
      __sync_nand_and_fetch, __sync_bool_compare_and_swap,
      __sync_val_compare_and_swap, __sync_lock_test_and_set, __sync_lock_release,
      assign, assignOp, load, store, write, Operand.lit, bind, StateT.bind, pure,
      StateT.pure, Functor.map, StateT.map, hx] at hop ⊢

/-- Claim C16, amended, at `__sync_lock_test_and_set` on `int x = 5`: one read,
first, whose value is the result. -/
theorem loads_of_pointee_witness :
    PtrOp.lock_test_and_set ≠ PtrOp.lock_release ∧
    (accesses (PtrOp.lock_test_and_set.invoke (CType.sint 32) (pure 0) (Operand.lit (CType.sint 32) 1)
        (Operand.lit (CType.sint 32) 0)) (initState 5)).head? = some (Event.load 0 5) ∧
    (accesses (PtrOp.lock_test_and_set.invoke (CType.sint 32) (pure 0) (Operand.lit (CType.sint 32) 1)
        (Operand.lit (CType.sint 32) 0)) (initState 5)).countP (Event.isLoadOf 0) = 1 ∧
    (PtrOp.lock_test_and_set.invoke (CType.sint 32) (pure 0) (Operand.lit (CType.sint 32) 1) (Operand.lit (CType.sint 32) 0)
      (initState 5)).1 = some 5 :=
  ⟨by decide,
    (loads_of_pointee PtrOp.lock_test_and_set (CType.sint 32) (CType.sint 32) (CType.sint 32)
      0 1 0 (initState 5) (by decide)).1,
    ((loads_of_pointee PtrOp.lock_test_and_set (CType.sint 32) (CType.sint 32)
      (CType.sint 32) 0 1 0 (initState 5) (by decide)).2.1 (by decide)).1,
    ((loads_of_pointee PtrOp.lock_test_and_set (CType.sint 32) (CType.sint 32)
      (CType.sint 32) 0 1 0 (initState 5) (by decide)).2.1 (by decide)).2⟩

/-- Claim C17 as stated fails on a `_Bool` pointee, whose width is 1: with
`b == 1`, `__sync_fetch_and_add(&b, 1)` returns 1 and `__sync_add_and_fetch(&b, 1)`
returns 1, where `1 + 1` taken at width 1 is 0.  On the signed `int x = 3`,
`__sync_fetch_and_sub(&x, 5)` returns 3 and `__sync_sub_and_fetch(&x, 5)` returns
`-2`, not the residue 4294967294 of `3 - 5`. -/
theorem op_and_fetch_refinement_fails :
    ¬ ((__sync_add_and_fetch CType.bool (pure 0) (Operand.lit (CType.sint 32) 1) (initState 1)).1
        = ((__sync_fetch_and_add CType.bool (pure 0) (Operand.lit (CType.sint 32) 1) (initState 1)).1 + 1)
            % 2 ^ CType.bool.width) ∧
    ¬ ((__sync_sub_and_fetch (CType.sint 32) (pure 0) (Operand.lit (CType.sint 32) 5) (initState 3)).1
        = ((__sync_fetch_and_sub (CType.sint 32) (pure 0) (Operand.lit (CType.sint 32) 5) (initState 3)).1 - 5)
            % 2 ^ (CType.sint 32).width) := by
  decide

/-- Claim C17, amended: for every integer pointee type `t` and each of add, sub,
or, and, xor and nand, the op-and-fetch rewrite and the fetch-and-op rewrite
started from the same state leave the same memory, and the result of
op-and-fetch is the operation applied to the result `r` of fetch-and-op and `d`
(for nand, the complement of `r & d`), converted to `t`; when `t` is not
`_Bool` that is the value congruent to it modulo `2 ^ w`, `w` being the width of
`t`. -/
theorem op_and_fetch_refines_fetch_and_op (t td : CType) (a : Addr) (d : Int)
    (s : State) :
    ((__sync_add_and_fetch t (pure a) (Operand.lit td d) s).2.mem
        = (__sync_fetch_and_add t (pure a) (Operand.lit td d) s).2.mem ∧
      (__sync_add_and_fetch t (pure a) (Operand.lit td d) s).1
        = conv t (binop (common t td) (fun x y => x + y)
            (__sync_fetch_and_add t (pure a) (Operand.lit td d) s).1 d) ∧
      (t ≠ CType.bool →
        (__sync_add_and_fetch t (pure a) (Operand.lit td d) s).1 % 2 ^ t.width
          = ((__sync_fetch_and_add t (pure a) (Operand.lit td d) s).1 + d)
              % 2 ^ t.width)) ∧
    ((__sync_sub_and_fetch t (pure a) (Operand.lit td d) s).2.mem
        = (__sync_fetch_and_sub t (pure a) (Operand.lit td d) s).2.mem ∧
      (__sync_sub_and_fetch t (pure a) (Operand.lit td d) s).1
        = conv t (binop (common t td) (fun x y => x - y)
            (__sync_fetch_and_sub t (pure a) (Operand.lit td d) s).1 d) ∧
      (t ≠ CType.bool →
        (__sync_sub_and_fetch t (pure a) (Operand.lit td d) s).1 % 2 ^ t.width
          = ((__sync_fetch_and_sub t (pure a) (Operand.lit td d) s).1 - d)
              % 2 ^ t.width)) ∧
    ((__sync_or_and_fetch t (pure a) (Operand.lit td d) s).2.mem
        = (__sync_fetch_and_or t (pure a) (Operand.lit td d) s).2.mem ∧
      (__sync_or_and_fetch t (pure a) (Operand.lit td d) s).1
        = conv t (binop (common t td) Int.lor
            (__sync_fetch_and_or t (pure a) (Operand.lit td d) s).1 d) ∧
      (t ≠ CType.bool →
        (__sync_or_and_fetch t (pure a) (Operand.lit td d) s).1 % 2 ^ t.width
          = Int.lor (__sync_fetch_and_or t (pure a) (Operand.lit td d) s).1 d
              % 2 ^ t.width)) ∧
    ((__sync_and_and_fetch t (pure a) (Operand.lit td d) s).2.mem
        = (__sync_fetch_and_and t (pure a) (Operand.lit td d) s).2.mem ∧
      (__sync_and_and_fetch t (pure a) (Operand.lit td d) s).1
        = conv t (binop (common t td) Int.land
            (__sync_fetch_and_and t (pure a) (Operand.lit td d) s).1 d) ∧
      (t ≠ CType.bool →
        (__sync_and_and_fetch t (pure a) (Operand.lit td d) s).1 % 2 ^ t.width
          = Int.land (__sync_fetch_and_and t (pure a) (Operand.lit td d) s).1 d
              % 2 ^ t.width)) ∧
    ((__sync_xor_and_fetch t (pure a) (Operand.lit td d) s).2.mem
        = (__sync_fetch_and_xor t (pure a) (Operand.lit td d) s).2.mem ∧
      (__sync_xor_and_fetch t (pure a) (Operand.lit td d) s).1
        = conv t (binop (common t td) Int.xor
            (__sync_fetch_and_xor t (pure a) (Operand.lit td d) s).1 d) ∧
      (t ≠ CType.bool →
        (__sync_xor_and_fetch t (pure a) (Operand.lit td d) s).1 % 2 ^ t.width
          = Int.xor (__sync_fetch_and_xor t (pure a) (Operand.lit td d) s).1 d
              % 2 ^ t.width)) ∧
    ((__sync_nand_and_fetch t (pure a) (Operand.lit td d) s).2.mem
        = (__sync_fetch_and_nand t (pure a) (Operand.lit td d) s).2.mem ∧
      (__sync_nand_and_fetch t (pure a) (Operand.lit td d) s).1
        = conv t (cnot (common t td) (binop (common t td) Int.land
            (__sync_fetch_and_nand t (pure a) (Operand.lit td d) s).1 d)) ∧
      (t ≠ CType.bool →
        (__sync_nand_and_fetch t (pure a) (Operand.lit td d) s).1 % 2 ^ t.width
          = (~~~ (Int.land (__sync_fetch_and_nand t (pure a) (Operand.lit td d) s).1 d))
              % 2 ^ t.width)) := by
  have hadd : (__sync_add_and_fetch t (pure a) (Operand.lit td d) s).1
      = conv t (binop (common t td) (fun x y => x + y)
          (__sync_fetch_and_add t (pure a) (Operand.lit td d) s).1 d) := by
    simp [__sync_add_and_fetch, __sync_fetch_and_add, assign,
        assignOp, load, store, write, Operand.lit, bind, StateT.bind, pure,
      StateT.pure]
  have hsub : (__sync_sub_and_fetch t (pure a) (Operand.lit td d) s).1
      = conv t (binop (common t td) (fun x y => x - y)
          (__sync_fetch_and_sub t (pure a) (Operand.lit td d) s).1 d) := by
    simp [__sync_sub_and_fetch, __sync_fetch_and_sub, assign,
        assignOp, load, store, write, Operand.lit, bind, StateT.bind, pure,
      StateT.pure]
  have hor : (__sync_or_and_fetch t (pure a) (Operand.lit td d) s).1
      = conv t (binop (common t td) Int.lor
          (__sync_fetch_and_or t (pure a) (Operand.lit td d) s).1 d) := by
    simp [__sync_or_and_fetch, __sync_fetch_and_or, assign,
        assignOp, load, store, write, Operand.lit, bind, StateT.bind, pure,
      StateT.pure]
  have hand : (__sync_and_and_fetch t (pure a) (Operand.lit td d) s).1
      = conv t (binop (common t td) Int.land
          (__sync_fetch_and_and t (pure a) (Operand.lit td d) s).1 d) := by
    simp [__sync_and_and_fetch, __sync_fetch_and_and, assign,
        assignOp, load, store, write, Operand.lit, bind, StateT.bind, pure,
      StateT.pure]
  have hxor : (__sync_xor_and_fetch t (pure a) (Operand.lit td d) s).1
      = conv t (binop (common t td) Int.xor
          (__sync_fetch_and_xor t (pure a) (Operand.lit td d) s).1 d) := by
    simp [__sync_xor_and_fetch, __sync_fetch_and_xor, assign,
        assignOp, load, store, write, Operand.lit, bind, StateT.bind, pure,
      StateT.pure]
  have hnand : (__sync_nand_and_fetch t (pure a) (Operand.lit td d) s).1
      = conv t (cnot (common t td) (binop (common t td) Int.land
          (__sync_fetch_and_nand t (pure a) (Operand.lit td d) s).1 d)) := by
    simp [__sync_nand_and_fetch, __sync_fetch_and_nand, assign,
        assignOp, load, store, write, Operand.lit, bind, StateT.bind, pure,
      StateT.pure]
  refine ⟨?_, ?_, ?_, ?_, ?_, ?_⟩
  · exact ⟨by simp [__sync_add_and_fetch, __sync_fetch_and_add, assign,
      assignOp, load, store, write, Operand.lit, bind, StateT.bind, pure,
      StateT.pure],
      hadd,
      fun ht => by
        rw [hadd]
        exact store_binop_emod _ (fun w x x' y y' hx hy => add_emod w x x' y y' hx hy) t td _ _ ht⟩
  · exact ⟨by simp [__sync_sub_and_fetch, __sync_fetch_and_sub, assign,
      assignOp, load, store, write, Operand.lit, bind, StateT.bind, pure,
      StateT.pure],
      hsub,
      fun ht => by
        rw [hsub]
        exact store_binop_emod _ (fun w x x' y y' hx hy => sub_emod w x x' y y' hx hy) t td _ _ ht⟩
  · exact ⟨by simp [__sync_or_and_fetch, __sync_fetch_and_or, assign,
      assignOp, load, store, write, Operand.lit, bind, StateT.bind, pure,
      StateT.pure],
      hor,
      fun ht => by
        rw [hor]
        exact store_binop_emod _ (fun w x x' y y' hx hy => lor_emod w x x' y y' hx hy) t td _ _ ht⟩
  · exact ⟨by simp [__sync_and_and_fetch, __sync_fetch_and_and, assign,
      assignOp, load, store, write, Operand.lit, bind, StateT.bind, pure,
      StateT.pure],
      hand,
      fun ht => by
        rw [hand]
        exact store_binop_emod _ (fun w x x' y y' hx hy => land_emod w x x' y y' hx hy) t td _ _ ht⟩
  · exact ⟨by simp [__sync_xor_and_fetch, __sync_fetch_and_xor, assign,
      assignOp, load, store, write, Operand.lit, bind, StateT.bind, pure,
      StateT.pure],
      hxor,
      fun ht => by
        rw [hxor]
        exact store_binop_emod _ (fun w x x' y y' hx hy => xor_emod w x x' y y' hx hy) t td _ _ ht⟩
  · exact ⟨by simp [__sync_nand_and_fetch, __sync_fetch_and_nand, assign,
      assignOp, load, store, write, Operand.lit, bind, StateT.bind, pure,
      StateT.pure],
      hnand,
      fun ht => by
        rw [hnand]
        exact store_nand_emod t td _ _ ht⟩

/-- Claim C18: one invocation of any pointer-taking operation, with value
operands free of side effects, leaves every cell other than the one `ptr`
designates as it was. -/
theorem other_cells_unchanged (op : PtrOp) (t tx ty : CType) (a b : Addr) (x y : Int)
    (s : State) (hb : b ≠ a) :
    (op.invoke t (pure a) (Operand.lit tx x) (Operand.lit ty y) s).2.mem b = s.mem b := by
  by_cases hx : ceq t tx (s.mem a) x = true <;> cases op <;>
    simp [PtrOp.invoke, __sync_fetch_and_add, __sync_fetch_and_sub,
      __sync_fetch_and_or, __sync_fetch_and_and, __sync_fetch_and_xor,
      __sync_fetch_and_nand, __sync_add_and_fetch, __sync_sub_and_fetch,
      __sync_or_and_fetch, __sync_and_and_fetch, __sync_xor_and_fetch,
      __sync_nand_and_fetch, __sync_bool_compare_and_swap,
      __sync_val_compare_and_swap, __sync_lock_test_and_set, __sync_lock_release,
      assign, assignOp, load, store, write, Operand.lit, bind, StateT.bind, pure,
      StateT.pure, Functor.map, StateT.map, hx, hb]

/-- Claim C18 at `__sync_fetch_and_add(&x, 3)` with the `int x` in cell 0 holding
5: cell 1 still holds 5. -/
theorem other_cells_unchanged_witness :
    (1 : Addr) ≠ 0 ∧
    (PtrOp.fetch_and_add.invoke (CType.sint 32) (pure 0) (Operand.lit (CType.sint 32) 3) (Operand.lit (CType.sint 32) 0)
      (initState 5)).2.mem 1 = (initState 5).mem 1 :=
  ⟨by decide,
    other_cells_unchanged PtrOp.fetch_and_add (CType.sint 32) (CType.sint 32)
      (CType.sint 32) 0 1 3 0 (initState 5) (by decide)⟩

/-- Claim C19: in `__sync_bool_compare_and_swap` and
`__sync_val_compare_and_swap`, with counting operands whose counters are
distinct cells other than `*ptr`, the counter of `oldval` advances by one on
every invocation; the counter of `newval` advances by one when the initial
`*ptr` equals `oldval` (by the comparison `==` of C) and stays otherwise; `*ptr`
ends as `newval` converted to the pointee type in the first case and unchanged
in the second; and the counter of `newval` is written exactly when `*ptr` is
written, so the side effects of `newval` occur exactly when the swap occurs.
When the values differ the invocation does not depend on the `newval` operand
at all. -/
theorem compare_and_swap_operand_evaluations (t told tnew : CType) (a co cn : Addr)
    (o n : Int) (s : State) (hco : co ≠ a) (hcn : cn ≠ a) (hcc : co ≠ cn) :
    ((__sync_bool_compare_and_swap t (pure a) (countingVal co told o)
        (countingVal cn tnew n) s).2.mem co = s.mem co + 1 ∧
      (__sync_bool_compare_and_swap t (pure a) (countingVal co told o)
          (countingVal cn tnew n) s).2.mem cn = s.mem cn + (if ceq t told (s.mem a) o
              = true then 1 else 0) ∧
      (__sync_bool_compare_and_swap t (pure a) (countingVal co told o)
          (countingVal cn tnew n) s).2.mem a = (if ceq t told (s.mem a) o
              = true then conv t n else s.mem a) ∧
      ((accesses (__sync_bool_compare_and_swap t (pure a) (countingVal co told o)
          (countingVal cn tnew n)) s).any (Event.isStoreOf a) = true ↔
        ceq t told (s.mem a) o = true) ∧
      ((accesses (__sync_bool_compare_and_swap t (pure a) (countingVal co told o)
          (countingVal cn tnew n)) s).any (Event.isStoreOf cn) = true ↔
        (accesses (__sync_bool_compare_and_swap t (pure a) (countingVal co told o)
            (countingVal cn tnew n)) s).any (Event.isStoreOf a) = true)) ∧
    ((__sync_val_compare_and_swap t (pure a) (countingVal co told o)
        (countingVal cn tnew n) s).2.mem co = s.mem co + 1 ∧
      (__sync_val_compare_and_swap t (pure a) (countingVal co told o)
          (countingVal cn tnew n) s).2.mem cn = s.mem cn + (if ceq t told (s.mem a) o
              = true then 1 else 0) ∧
      (__sync_val_compare_and_swap t (pure a) (countingVal co told o)
          (countingVal cn tnew n) s).2.mem a = (if ceq t told (s.mem a) o
              = true then conv t n else s.mem a) ∧
      ((accesses (__sync_val_compare_and_swap t (pure a) (countingVal co told o)
          (countingVal cn tnew n)) s).any (Event.isStoreOf a) = true ↔
        ceq t told (s.mem a) o = true) ∧
      ((accesses (__sync_val_compare_and_swap t (pure a) (countingVal co told o)
          (countingVal cn tnew n)) s).any (Event.isStoreOf cn) = true ↔
        (accesses (__sync_val_compare_and_swap t (pure a) (countingVal co told o)
            (countingVal cn tnew n)) s).any (Event.isStoreOf a) = true)) ∧
    (ceq t told (s.mem a) o = false → ∀ e e2 : Operand,
      __sync_bool_compare_and_swap t (pure a) (countingVal co told o) e s
        = __sync_bool_compare_and_swap t (pure a) (countingVal co told o) e2 s ∧
      __sync_val_compare_and_swap t (pure a) (countingVal co told o) e s
        = __sync_val_compare_and_swap t (pure a) (countingVal co told o) e2 s) := by
  have hac : a ≠ co := Ne.symm hco
  have hac2 : a ≠ cn := Ne.symm hcn
  have hcc2 : cn ≠ co := Ne.symm hcc
  by_cases hx : ceq t told (s.mem a) o = true <;>
    simp [__sync_bool_compare_and_swap, __sync_val_compare_and_swap, countingVal, accesses,
      Event.isStoreOf, Event.isLoadOf, assign, load, store, write, bind, StateT.bind, pure,
      StateT.pure, hx, hco, hcn, hcc, hac, hac2, hcc2]

/-- Claim C19 with `uint32_t x = 4294967295` in cell 0, the counter of `oldval`
in cell 1 and the counter of `newval` in cell 2, every cell at 4294967295, and
`oldval = -1`, `newval = 7`: the comparison holds, both operands were evaluated
once and `x == 7`. -/
theorem compare_and_swap_operand_evaluations_witness :
    ((1 : Addr) ≠ 0 ∧ (2 : Addr) ≠ 0 ∧ (1 : Addr) ≠ 2) ∧
    (__sync_bool_compare_and_swap (CType.uint 32) (pure 0) (countingVal 1 (CType.sint 32) (-1))
      (countingVal 2 (CType.sint 32) 7) (initState 4294967295)).2.mem 1 = 4294967295 + 1 ∧
    (__sync_bool_compare_and_swap (CType.uint 32) (pure 0) (countingVal 1 (CType.sint 32) (-1))
      (countingVal 2 (CType.sint 32) 7) (initState 4294967295)).2.mem 2 = 4294967295 + 1 ∧
    (__sync_bool_compare_and_swap (CType.uint 32) (pure 0) (countingVal 1 (CType.sint 32) (-1))
      (countingVal 2 (CType.sint 32) 7) (initState 4294967295)).2.mem 0 = 7 :=
  ⟨by decide,
    (compare_and_swap_operand_evaluations (CType.uint 32) (CType.sint 32) (CType.sint 32)
      0 1 2 (-1) 7 (initState 4294967295) (by decide) (by decide) (by decide)).1.1,
    ((compare_and_swap_operand_evaluations (CType.uint 32) (CType.sint 32) (CType.sint 32)
      0 1 2 (-1) 7 (initState 4294967295) (by decide) (by decide)
      (by decide)).1.2.1).trans (by decide),
    ((compare_and_swap_operand_evaluations (CType.uint 32) (CType.sint 32) (CType.sint 32)
      0 1 2 (-1) 7 (initState 4294967295) (by decide) (by decide)
      (by decide)).1.2.2.1).trans (by decide)⟩

end Centrinel
